import Mathlib

/-!
# SoftLayer NetScaler VPX resource: HA pairing and provisioning waits

A shallow embedding of `softlayer/resource_softlayer_lb_vpx.go`.

* Go `error` values are represented by their message (`String`); a `nil`
  error is `none` / `Outcome.ok`.
* A nil-pointer dereference is the separate outcome `Outcome.panic`.
* The SoftLayer directory and the NetScaler NITRO endpoints are external
  services.  The directory is a function from appliance id to the answer of
  `GetObject`; the NITRO endpoints are an oracle `Env` that sees every
  earlier call of the run together with its result and decides the result of
  the next call.  Every issued call is appended to a trace.
* `resourceSoftLayerLbVpxCreate` is embedded with its remote services as the
  answer functions of `Backend`; its remote calls from the order on and its
  sleeps are recorded as a list of `Step`s.  Time is the sum of the sleeps.
-/

namespace Softlayer

/-! ## Outcomes of Go calls -/

/-- Result of a Go call: a value with a nil error, a non-nil error (its
message), or a run-time panic. -/
inductive Outcome (α : Type) where
  | ok (val : α)
  | error (msg : String)
  | panic (reason : String)
  deriving DecidableEq, Repr

/-- The function returned a non-nil `error` (it did not panic). -/
def Outcome.isError {α : Type} : Outcome α → Bool
  | .error _ => true
  | _ => false

/-- The function returned with a nil `error`. -/
def Outcome.isOk {α : Type} : Outcome α → Bool
  | .ok _ => true
  | _ => false

/-! ## SoftLayer data types (the fields the resource reads) -/

/-- Go `datatypes.Software_Component_Password`; `Password` is a `*string`. -/
structure Software_Component_Password where
  Password : Option String
  deriving DecidableEq, Repr

/-- Go `datatypes.Network_Subnet_IpAddress`. -/
structure Network_Subnet_IpAddress where
  IpAddress : Option String := none
  deriving DecidableEq, Repr

/-- Go `datatypes.Network_Subnet`; a nil slice is the empty list. -/
structure Network_Subnet where
  Id : Option Int := none
  IpAddresses : List Network_Subnet_IpAddress := []
  deriving DecidableEq, Repr

/-- Go `datatypes.Network_Application_Delivery_Controller`; pointer fields are
options. -/
structure Network_Application_Delivery_Controller where
  Id : Option Int := none
  ManagementIpAddress : Option String := none
  Password : Option Software_Component_Password := none
  Subnets : List Network_Subnet := []
  deriving DecidableEq, Repr

/-- The answer of
`GetNetworkApplicationDeliveryControllerService(sess).Id(id).GetObject()`
for every appliance id: the appliance record or a remote error. -/
abbrev Directory := Int → Except String Network_Application_Delivery_Controller

/-! ## NITRO client, requests and the call trace -/

/-- Value of `dt.CONFIG` in the NITRO client library. -/
def CONFIG : String := "config"

/-- Go `client.NitroClient` as built by `client.NewNitroClient`. -/
structure NitroClient where
  Protocol : String
  IpAddress : String
  Mode : String
  User : String
  Password : String
  Debug : Bool
  deriving DecidableEq, Repr

/-- Go `client.NewNitroClient(protocol, ipAddress, mode, user, password, debug)`. -/
def NewNitroClient (protocol ipAddress mode user password : String) (debug : Bool) :
    NitroClient :=
  { Protocol := protocol, IpAddress := ipAddress, Mode := mode, User := user,
    Password := password, Debug := debug }

/-- Go `dt.Systemuser`. -/
structure Systemuser where
  Username : Option String
  Password : Option String
  deriving DecidableEq, Repr

/-- Go `dt.Hanode`. -/
structure Hanode where
  Id : Option Int
  Ipaddress : Option String
  deriving DecidableEq, Repr

/-- Go `dt.Nsrpcnode`. -/
structure Nsrpcnode where
  Ipaddress : Option String
  Password : Option String
  deriving DecidableEq, Repr

/-- Go `dt.Hafiles`, whose only field is the list of file scopes. -/
structure Hafiles where
  Mode : List String
  deriving DecidableEq, Repr

/-- The request objects handed to the NITRO client; each wraps a pointer to
its payload, so an empty request such as `dt.HanodeReq{}` carries `none`. -/
inductive NitroReq where
  | SystemuserReq (Systemuser : Option Systemuser)
  | HanodeReq (Hanode : Option Hanode)
  | NsrpcnodeReq (Nsrpcnode : Option Nsrpcnode)
  | HafilesReq (Hafiles : Option Hafiles)
  deriving DecidableEq, Repr

/-- The client method used for a call. -/
inductive Method where
  | Add
  | Update
  | Delete
  deriving DecidableEq, Repr

/-- One remote NITRO call: the client as it was when the call was made (its
address and the credentials it authenticates with), the method, the request
and the extra string arguments. -/
structure Call where
  client : NitroClient
  method : Method
  req : NitroReq
  args : List String
  deriving DecidableEq, Repr

/-- A call together with the error it returned (`none` is a nil error). -/
structure Event where
  call : Call
  result : Option String
  deriving DecidableEq, Repr

/-- The remote side: given the calls issued so far with their results, the
error returned by the next call. -/
abbrev Env := List Event → Call → Option String

/-- The remote side as seen after the events `t` have already happened. -/
def Env.after (env : Env) (t : List Event) : Env :=
  fun t' c => env (t ++ t') c

/-- Issue one call through client `c`: ask the remote side and log the event. -/
def NitroClient.send (c : NitroClient) (env : Env) (m : Method) (req : NitroReq)
    (args : List String) (t : List Event) : Option String × List Event :=
  (env t ⟨c, m, req, args⟩, t ++ [⟨⟨c, m, req, args⟩, env t ⟨c, m, req, args⟩⟩])

/-- Go `(*NitroClient).Add(req, params...)`. -/
def NitroClient.Add (c : NitroClient) (env : Env) (req : NitroReq) (args : List String)
    (t : List Event) : Option String × List Event :=
  c.send env .Add req args t

/-- Go `(*NitroClient).Update(req, params...)`. -/
def NitroClient.Update (c : NitroClient) (env : Env) (req : NitroReq) (args : List String)
    (t : List Event) : Option String × List Event :=
  c.send env .Update req args t

/-- Go `(*NitroClient).Delete(req, params...)`. -/
def NitroClient.Delete (c : NitroClient) (env : Env) (req : NitroReq) (args : List String)
    (t : List Event) : Option String × List Event :=
  c.send env .Delete req args t

/-- The calls of a trace, without their results. -/
def calls (t : List Event) : List Call :=
  t.map (fun ev => ev.call)

/-- Position (from 0) of the first failed call of a trace, if any. -/
def firstFailure : List Event → Option Nat
  | [] => none
  | ev :: rest =>
    if ev.result.isSome then some 0 else (firstFailure rest).map (fun i => i + 1)

/-! ## `getNitroClient`, `nitroConfigureHA`, `nitroDeleteHA` -/

/-- Go `getNitroClient`: look the appliance up and build a client for its
management address with user `root` and the stored password. -/
def getNitroClient (sess : Directory) (nadcId : Int) : Outcome NitroClient :=
  match sess nadcId with
  | .error err => .error ("Error retrieving netscaler: " ++ err)
  | .ok nadc =>
    match nadc.ManagementIpAddress with
    | none => .panic "nil pointer dereference"
    | some ip =>
      match nadc.Password with
      | none => .panic "nil pointer dereference"
      | some pw =>
        match pw.Password with
        | none => .panic "nil pointer dereference"
        | some password => .ok (NewNitroClient "http" ip CONFIG "root" password true)

/-- What a run of the HA coordinator did: the returned error, the two client
objects as they were when the function returned (absent when a lookup
failed), and the remote calls issued, in order. -/
structure HARun where
  err : Outcome Unit
  nClient1 : Option NitroClient
  nClient2 : Option NitroClient
  trace : List Event
  deriving DecidableEq, Repr

/-- Go `nitroConfigureHA`. -/
def nitroConfigureHA (env : Env) (sess : Directory) (primaryId secondaryId : Int) : HARun :=
  match getNitroClient sess primaryId with
  | .panic r => ⟨.panic r, none, none, []⟩
  | .error _ =>
    ⟨.error ("Error getting primary netscaler information ID: " ++ toString primaryId),
      none, none, []⟩
  | .ok nClient1 =>
  match getNitroClient sess secondaryId with
  | .panic r => ⟨.panic r, some nClient1, none, []⟩
  | .error _ =>
    ⟨.error ("Error getting secondary netscaler information ID: " ++ toString secondaryId),
      some nClient1, none, []⟩
  | .ok nClient2 =>
  -- 1. VPX2 : Sync password
  let systemuserReq2 := NitroReq.SystemuserReq (some ⟨some "root", some nClient1.Password⟩)
  match nClient2.Update env systemuserReq2 [] [] with
  | (some err, t1) => ⟨.error err, some nClient1, some nClient2, t1⟩
  | (none, t1) =>
  let nClient2 := { nClient2 with Password := nClient1.Password }
  -- 2. VPX1 : Register hanode
  let hanodeReq1 := NitroReq.HanodeReq (some ⟨some 2, some nClient2.IpAddress⟩)
  match nClient1.Add env hanodeReq1 [] t1 with
  | (some err, t2) => ⟨.error err, some nClient1, some nClient2, t2⟩
  | (none, t2) =>
  -- 3. VPX2 : Register hanode
  let hanodeReq2 := NitroReq.HanodeReq (some ⟨some 2, some nClient1.IpAddress⟩)
  match nClient2.Add env hanodeReq2 [] t2 with
  | (some err, t3) => ⟨.error err, some nClient1, some nClient2, t3⟩
  | (none, t3) =>
  -- 4. VPX1 : Register rpcnode
  let nsrpcnode1 : Nsrpcnode := ⟨some nClient1.IpAddress, some nClient1.Password⟩
  match nClient1.Update env (.NsrpcnodeReq (some nsrpcnode1)) [] t3 with
  | (some err, t4) => ⟨.error err, some nClient1, some nClient2, t4⟩
  | (none, t4) =>
  let nsrpcnode1 := { nsrpcnode1 with Ipaddress := some nClient2.IpAddress }
  match nClient1.Update env (.NsrpcnodeReq (some nsrpcnode1)) [] t4 with
  | (some err, t5) => ⟨.error err, some nClient1, some nClient2, t5⟩
  | (none, t5) =>
  -- 5. VPX2 : Register rpcnode
  let nsrpcnode2 : Nsrpcnode := ⟨some nClient1.IpAddress, some nClient1.Password⟩
  match nClient2.Update env (.NsrpcnodeReq (some nsrpcnode2)) [] t5 with
  | (some err, t6) => ⟨.error err, some nClient1, some nClient2, t6⟩
  | (none, t6) =>
  let nsrpcnode2 := { nsrpcnode2 with Ipaddress := some nClient2.IpAddress }
  match nClient2.Update env (.NsrpcnodeReq (some nsrpcnode2)) [] t6 with
  | (some err, t7) => ⟨.error err, some nClient1, some nClient2, t7⟩
  | (none, t7) =>
  -- 6. VPX1 : Sync files
  let hafiles := NitroReq.HafilesReq (some ⟨["all"]⟩)
  match nClient1.Add env hafiles ["action=sync"] t7 with
  | (some err, t8) => ⟨.error err, some nClient1, some nClient2, t8⟩
  | (none, t8) => ⟨.ok (), some nClient1, some nClient2, t8⟩

/-- Go `nitroDeleteHA`. -/
def nitroDeleteHA (env : Env) (sess : Directory) (primaryId secondaryId : Int) : HARun :=
  match getNitroClient sess primaryId with
  | .panic r => ⟨.panic r, none, none, []⟩
  | .error _ =>
    ⟨.error ("Error getting primary netscaler information ID: " ++ toString primaryId),
      none, none, []⟩
  | .ok nClient1 =>
  match getNitroClient sess secondaryId with
  | .panic r => ⟨.panic r, some nClient1, none, []⟩
  | .error _ =>
    ⟨.error ("Error getting secondary netscaler information ID: " ++ toString secondaryId),
      some nClient1, none, []⟩
  | .ok nClient2 =>
  let passwordOrg := nClient2.Password
  let nClient2 := { nClient2 with Password := nClient1.Password }
  -- 1. VPX2 : Delete hanode
  match nClient2.Delete env (.HanodeReq none) ["2"] [] with
  | (some err, t1) => ⟨.error err, some nClient1, some nClient2, t1⟩
  | (none, t1) =>
  -- 2. VPX1 : Delete hanode
  match nClient1.Delete env (.HanodeReq none) ["2"] t1 with
  | (some err, t2) => ⟨.error err, some nClient1, some nClient2, t2⟩
  | (none, t2) =>
  -- 3. VPX2 : Update password to the previous password.
  let systemuserReq2 := NitroReq.SystemuserReq (some ⟨some "root", some passwordOrg⟩)
  match nClient2.Update env systemuserReq2 [] t2 with
  | (some err, t3) => ⟨.error err, some nClient1, some nClient2, t3⟩
  | (none, t3) => ⟨.ok (), some nClient1, some nClient2, t3⟩

/-! ## The expected call sequences -/

/-- The eight calls of a fully successful `nitroConfigureHA`, for a primary
at `ip1` with password `pw1` and a secondary at `ip2` whose stored password is
`pw2`. -/
def establishCalls (ip1 pw1 ip2 pw2 : String) : List Call :=
  let primary := NewNitroClient "http" ip1 CONFIG "root" pw1 true
  let secondary0 := NewNitroClient "http" ip2 CONFIG "root" pw2 true
  let secondary := NewNitroClient "http" ip2 CONFIG "root" pw1 true
  [ ⟨secondary0, .Update, .SystemuserReq (some ⟨some "root", some pw1⟩), []⟩,
    ⟨primary, .Add, .HanodeReq (some ⟨some 2, some ip2⟩), []⟩,
    ⟨secondary, .Add, .HanodeReq (some ⟨some 2, some ip1⟩), []⟩,
    ⟨primary, .Update, .NsrpcnodeReq (some ⟨some ip1, some pw1⟩), []⟩,
    ⟨primary, .Update, .NsrpcnodeReq (some ⟨some ip2, some pw1⟩), []⟩,
    ⟨secondary, .Update, .NsrpcnodeReq (some ⟨some ip1, some pw1⟩), []⟩,
    ⟨secondary, .Update, .NsrpcnodeReq (some ⟨some ip2, some pw1⟩), []⟩,
    ⟨primary, .Add, .HafilesReq (some ⟨["all"]⟩), ["action=sync"]⟩ ]

/-- The three calls of a fully successful `nitroDeleteHA`. -/
def teardownCalls (ip1 pw1 ip2 pw2 : String) : List Call :=
  let primary := NewNitroClient "http" ip1 CONFIG "root" pw1 true
  let secondary := NewNitroClient "http" ip2 CONFIG "root" pw1 true
  [ ⟨secondary, .Delete, .HanodeReq none, ["2"]⟩,
    ⟨primary, .Delete, .HanodeReq none, ["2"]⟩,
    ⟨secondary, .Update, .SystemuserReq (some ⟨some "root", some pw2⟩), []⟩ ]

/-- A directory entry with the given management address and password. -/
def appliance (id : Int) (ip pw : String) : Network_Application_Delivery_Controller :=
  { Id := some id, ManagementIpAddress := some ip, Password := some ⟨some pw⟩ }

/-- The lookup of appliance `id` succeeds and reports address `ip` and
password `pw`. -/
def Lookup (sess : Directory) (id : Int) (ip pw : String) : Prop :=
  ∃ nadc, sess id = .ok nadc ∧ nadc.ManagementIpAddress = some ip ∧
    nadc.Password = some ⟨some pw⟩

/-! ## A straight-line script of calls (specification side) -/

/-- Issue the calls of `cs` in order, starting after the events `t`, and stop
at the first call that returns an error.  Returns that error (or `none`) and
the extended trace. -/
def runScript (env : Env) : List Call → List Event → Option String × List Event
  | [], t => (none, t)
  | c :: cs, t =>
    match env t c with
    | some e => (some e, t ++ [⟨c, some e⟩])
    | none => runScript env cs (t ++ [⟨c, none⟩])

/-- The Go `error` result of a function that returns only an error. -/
def toOutcome : Option String → Outcome Unit
  | none => .ok ()
  | some e => .error e

/-- The events of a list of calls that all succeeded. -/
def okEvents (cs : List Call) : List Event :=
  cs.map (fun c => ⟨c, none⟩)

/-- The logical step categories of the establish sequence, as labelled by the
comments of `nitroConfigureHA`. -/
inductive StepCategory where
  | passwordSync
  | nodeRegistration
  | rpcRegistration
  | fileSync
  deriving DecidableEq, Repr

/-- The step category a call belongs to, by the object it configures. -/
def Call.category (c : Call) : StepCategory :=
  match c.req with
  | .SystemuserReq _ => .passwordSync
  | .HanodeReq _ => .nodeRegistration
  | .NsrpcnodeReq _ => .rpcRegistration
  | .HafilesReq _ => .fileSync

/-- The call adds an HA node. -/
def Call.isHanodeAdd (c : Call) : Bool :=
  match c.method, c.req with
  | .Add, .HanodeReq _ => true
  | _, _ => false

/-- The call deletes an HA node. -/
def Call.isHanodeDelete (c : Call) : Bool :=
  match c.method, c.req with
  | .Delete, .HanodeReq _ => true
  | _, _ => false

/-- The call updates an RPC node. -/
def Call.isRpcUpdate (c : Call) : Bool :=
  match c.method, c.req with
  | .Update, .NsrpcnodeReq _ => true
  | _, _ => false

/-- The call triggers the HA file synchronisation. -/
def Call.isFileSync (c : Call) : Bool :=
  match c.req with
  | .HafilesReq _ => true
  | _ => false

/-- The call sets the password of a system user. -/
def Call.isSetPassword (c : Call) : Bool :=
  match c.method, c.req with
  | .Update, .SystemuserReq _ => true
  | _, _ => false

/-! ## The appliances behind the management addresses -/

/-- The true admin (`root`) password of the appliance at each management
address. -/
abbrev World := String → String

/-- Effect of one event on the true passwords: only a successful update of
system user `root` changes the password of the addressed appliance. -/
def World.step (w : World) (ev : Event) : World :=
  match ev.result, ev.call.method, ev.call.req with
  | none, .Update, .SystemuserReq (some ⟨some user, some pw⟩) =>
    if user = "root" then Function.update w ev.call.client.IpAddress pw else w
  | _, _, _ => w

/-- The true passwords after a sequence of events. -/
def World.run (w : World) : List Event → World
  | [] => w
  | ev :: rest => World.run (w.step ev) rest

/-- The call authenticates as `root` with the true password of the appliance
it addresses. -/
def authentic (w : World) (c : Call) : Prop :=
  c.client.User = "root" ∧ c.client.Password = w c.client.IpAddress

/-- Every call of the trace is authentic at the moment it is issued. -/
def allAuthentic (w : World) : List Event → Prop
  | [] => True
  | ev :: rest => authentic w ev.call ∧ allAuthentic (w.step ev) rest

/-! ## `strconv.Atoi` and the resource data -/

/-- Lower-case hexadecimal digit of a number below 16. -/
def hexDigit (n : Nat) : Char :=
  if n < 10 then Char.ofNat (48 + n) else Char.ofNat (87 + n)

/-- One character as `strconv.Quote` writes it.  ASCII is exact; characters
above ASCII are written as they are. -/
def quoteChar (ch : Char) : String :=
  let bs := String.singleton (Char.ofNat 92)
  if ch = Char.ofNat 34 then bs ++ String.singleton ch
  else if ch = Char.ofNat 92 then bs ++ bs
  else if ch = Char.ofNat 7 then bs ++ "a"
  else if ch = Char.ofNat 8 then bs ++ "b"
  else if ch = Char.ofNat 12 then bs ++ "f"
  else if ch = Char.ofNat 10 then bs ++ "n"
  else if ch = Char.ofNat 13 then bs ++ "r"
  else if ch = Char.ofNat 9 then bs ++ "t"
  else if ch = Char.ofNat 11 then bs ++ "v"
  else if ch.toNat < 32 ∨ ch.toNat = 127 then
    bs ++ "x" ++ String.singleton (hexDigit (ch.toNat / 16))
      ++ String.singleton (hexDigit (ch.toNat % 16))
  else String.singleton ch

/-- Go `strconv.Quote`. -/
def strconvQuote (s : String) : String :=
  String.singleton (Char.ofNat 34) ++ String.join (s.toList.map quoteChar)
    ++ String.singleton (Char.ofNat 34)

/-- Value of a non-empty string of decimal digits. -/
def parseDecimal (ds : List Char) : Option Nat :=
  if ds.isEmpty then none
  else ds.foldl
    (fun acc ch => acc.bind (fun n =>
      if ch.isDigit then some (n * 10 + (ch.toNat - 48)) else none))
    (some 0)

/-- Message of the `*strconv.NumError` that `Atoi` returns. -/
def numError (s reason : String) : String :=
  "strconv.Atoi: parsing " ++ strconvQuote s ++ ": " ++ reason

/-- Go `strconv.Atoi` for a 64-bit `int`: the value and the error. -/
def Atoi (s : String) : Int × Option String :=
  let cs := s.toList
  let neg := cs.head? = some (Char.ofNat 45)
  let ds := if cs.head? = some (Char.ofNat 45) ∨ cs.head? = some (Char.ofNat 43)
    then cs.tail else cs
  match parseDecimal ds with
  | none => (0, some (numError s "invalid syntax"))
  | some n =>
    if neg then
      if n > 2 ^ 63 then (-(2 ^ 63), some (numError s "value out of range"))
      else (-(n : Int), none)
    else
      if n ≥ 2 ^ 63 then (2 ^ 63 - 1, some (numError s "value out of range"))
      else ((n : Int), none)

/-- What `resourceSoftLayerLbVpxUpdate` reads from `*schema.ResourceData`. -/
structure ResourceData where
  /-- Result of `d.Id()`. -/
  Id : String
  /-- Result of `d.HasChange("ha_secondary")`. -/
  haSecondaryHasChange : Bool
  /-- Result of `d.Get("ha_secondary.%")`, the number of entries of the map. -/
  haSecondaryCount : String
  /-- Result of `d.Get("ha_secondary.primary_id")`. -/
  haSecondaryPrimaryId : String
  /-- Old value returned by `d.GetChange("ha_secondary.primary_id")`. -/
  haSecondaryPrimaryIdOld : String
  deriving DecidableEq, Repr

/-- What a run of `resourceSoftLayerLbVpxUpdate` did: the returned error, the
HA coordinator run it invoked (if any), and the remote calls issued. -/
structure UpdateRun where
  err : Outcome Unit
  ha : Option HARun
  trace : List Event
  deriving DecidableEq, Repr

/-- Go `resourceSoftLayerLbVpxUpdate`. -/
def resourceSoftLayerLbVpxUpdate (env : Env) (sess : Directory) (d : ResourceData) :
    UpdateRun :=
  if d.haSecondaryHasChange then
    let numOfProperties := (Atoi d.haSecondaryCount).1
    if numOfProperties > 0 then
      match Atoi d.haSecondaryPrimaryId with
      | (_, some err) => ⟨.error ("Not a valid ID, must be an integer: " ++ err), none, []⟩
      | (primaryId, none) =>
      match Atoi d.Id with
      | (_, some err) => ⟨.error ("Not a valid ID, must be an integer: " ++ err), none, []⟩
      | (secondaryId, none) =>
      let run := nitroConfigureHA env sess primaryId secondaryId
      match run.err with
      | .panic r => ⟨.panic r, some run, run.trace⟩
      | .error err =>
        ⟨.error ("Error configuraing HA for netscaler: " ++ err), some run, run.trace⟩
      | .ok _ => ⟨.ok (), some run, run.trace⟩
    else
      match Atoi d.haSecondaryPrimaryIdOld with
      | (_, some err) => ⟨.error ("Not a valid ID, must be an integer: " ++ err), none, []⟩
      | (primaryId, none) =>
      match Atoi d.Id with
      | (_, some err) => ⟨.error ("Not a valid ID, must be an integer: " ++ err), none, []⟩
      | (secondaryId, none) =>
      let run := nitroDeleteHA env sess primaryId secondaryId
      -- `err = nitroDeleteHA(...)` is assigned and never inspected
      match run.err with
      | .panic r => ⟨.panic r, some run, run.trace⟩
      | _ => ⟨.ok (), some run, run.trace⟩
  else ⟨.ok (), none, []⟩

/-! ## The order-binding wait -/

/-- The three results of a `Refresh` closure: the value (`nil` is `none`), the
state name and the error. -/
structure RefreshResult (α : Type) where
  result : Option α
  state : String
  err : Option String
  deriving DecidableEq, Repr

/-- Go `resource.StateChangeConf`; `Refresh n` is the answer of the closure
at its call number `n` (counted from 0).  Durations are in seconds. -/
structure StateChangeConf (α : Type) where
  Pending : List String
  Target : List String
  Refresh : Nat → RefreshResult α
  Timeout : Nat
  Delay : Nat
  MinTimeout : Nat

/-- What a wait did: the pair returned by `WaitForState` and the number of
times `Refresh` was called. -/
structure WaitRun (α : Type) where
  result : Option α
  err : Option String
  polls : Nat
  deriving DecidableEq, Repr

/-- The classification of one answer of a wait predicate (`WaitOutcome`):
still pending, ready with a value, or fatal with an error. -/
inductive WaitOutcome (α : Type) where
  | pending
  | ready (value : Option α)
  | fatal (err : String)
  deriving DecidableEq, Repr

/-- Modelled from the spec: how `WaitForState` reads one answer of `Refresh`
(the `helper/resource` package is not among the sources).  An error is
fatal; otherwise a state in `Target` is ready, a state in `Pending` is
pending, and a state in neither list is reported as an error. -/
def StateChangeConf.classify {α : Type} (conf : StateChangeConf α) (r : RefreshResult α) :
    WaitOutcome α :=
  match r.err with
  | some err => .fatal err
  | none =>
    if r.state ∈ conf.Target then .ready r.result
    else if r.state ∈ conf.Pending then .pending
    else .fatal ("unexpected state " ++ r.state)

/-- Modelled from the spec: the polling loop of `WaitForState`.  A fatal
answer ends the wait at once with its error; a ready answer returns the value
at once; a pending answer makes the waiter sleep and retry; the wait times
out when the attempt budget `fuel` is used up.  `n` is the number of polls
already made. -/
def waitLoop {α : Type} (conf : StateChangeConf α) : Nat → Nat → WaitRun α
  | 0, n => ⟨none, some "timeout while waiting for state", n⟩
  | fuel + 1, n =>
    match conf.classify (conf.Refresh n) with
    | .fatal err => ⟨none, some err, n + 1⟩
    | .ready value => ⟨value, none, n + 1⟩
    | .pending => waitLoop conf fuel (n + 1)

/-- Modelled from the spec: `(*StateChangeConf).WaitForState` with an attempt
budget of `budget` polls standing for the time-out. -/
def WaitForState {α : Type} (conf : StateChangeConf α) (budget : Nat) : WaitRun α :=
  waitLoop conf budget 0

/-- The answers of the account service to
`GetApplicationDeliveryControllers` filtered by order id: for every order id
and query number, the appliances found or a remote error. -/
abbrev AccountService :=
  Int → Nat → Except String (List Network_Application_Delivery_Controller)

/-- The `Refresh` closure of `findVPXByOrderId`, for the answer `vpxs, err`
of the account service. -/
def findVPXByOrderIdRefresh
    (answer : Except String (List Network_Application_Delivery_Controller)) :
    RefreshResult Network_Application_Delivery_Controller :=
  match answer with
  | .error err => ⟨some {}, "", some err⟩
  | .ok vpxs =>
    match vpxs with
    | [vpx] => ⟨some vpx, "complete", none⟩
    | [] => ⟨none, "pending", none⟩
    | _ => ⟨none, "", some "Expected one VPX: %!s(<nil>)"⟩

/-- What `findVPXByOrderId` did: its two results and the number of directory
queries. -/
structure FindRun where
  result : Outcome Network_Application_Delivery_Controller
  queries : Nat
  deriving DecidableEq, Repr

/-- The `stateConf` of `findVPXByOrderId`. -/
def findVPXByOrderIdConf (service : AccountService) (orderId : Int) :
    StateChangeConf Network_Application_Delivery_Controller :=
  { Pending := ["pending"]
    Target := ["complete"]
    Refresh := fun n => findVPXByOrderIdRefresh (service orderId n)
    Timeout := 10 * 60
    Delay := 5
    MinTimeout := 3 }

/-- Go `findVPXByOrderId`; `budget` is the attempt budget of the wait. -/
def findVPXByOrderId (service : AccountService) (budget : Nat) (orderId : Int) : FindRun :=
  let stateConf := findVPXByOrderIdConf service orderId
  let run := WaitForState stateConf budget
  match run.err with
  | some err => ⟨.error err, run.polls⟩
  | none =>
    match run.result with
    | some result => ⟨.ok result, run.polls⟩
    | none =>
      ⟨.error ("Cannot find Application Delivery Controller with order id \x27"
        ++ toString orderId ++ "\x27"), run.polls⟩

/-! ## Catalogue keys and prices -/

/-- Go constant `DELIMITER`. -/
def DELIMITER : String := "_"

/-- Go constant `PACKAGE_ID_APPLICATION_DELIVERY_CONTROLLER`. -/
def PACKAGE_ID_APPLICATION_DELIVERY_CONTROLLER : Int := 192

/-- Result of a Go function with results `(value, error)`: both results as
returned, or a run-time panic. -/
inductive Returns (α : Type) where
  | values (val : α) (err : Option String)
  | panic (reason : String)
  deriving DecidableEq, Repr

/-- Go `strings.Replace(s, old, new, -1)` for a one-character `old`. -/
def stringsReplaceAll (s : String) (old : Char) (new : String) : String :=
  String.join (s.toList.map (fun c => if c = old then new else String.singleton c))

/-- Go `strings.ToUpper`: every character is mapped on its upper-case
character.  ASCII is mapped here; for the characters above ASCII the mapping
`unicodeToUpper` of the `unicode` package is a parameter. -/
def stringsToUpper (unicodeToUpper : Char → Char) (s : String) : String :=
  String.mk (s.toList.map (fun c => if c.toNat < 128 then c.toUpper else unicodeToUpper c))

/-- Go `strings.Join(elems, sep)`. -/
def stringsJoin (elems : List String) (sep : String) : String :=
  sep.intercalate elems

/-- Go `strings.Split(s, sep)` for a one-character `sep`. -/
def stringsSplit (s : String) (sep : Char) : List String :=
  (s.toList.splitOn sep).map String.mk

/-- Go `strconv.Itoa`. -/
def Itoa (i : Int) : String :=
  toString i

/-- Go `getVPXPriceItemKeyName`. -/
def getVPXPriceItemKeyName (unicodeToUpper : Char → Char) (version : String) (speed : Int)
    (plan : String) : String :=
  let name := "CITRIX_NETSCALER_VPX"
  let speedMeasurements := "MBPS"
  let versionReplaced := stringsReplaceAll version (Char.ofNat 46) DELIMITER
  let speedString := Itoa speed ++ speedMeasurements
  stringsJoin [name, versionReplaced, speedString, stringsToUpper unicodeToUpper plan] DELIMITER

/-- Go `getPublicIpItemKeyName`. -/
def getPublicIpItemKeyName (ipCount : Int) : String :=
  let name := "STATIC_PUBLIC_IP_ADDRESSES"
  let ipCountString := Itoa ipCount
  stringsJoin [ipCountString, name] DELIMITER

/-- Go `datatypes.Product_Item_Price`. -/
structure Product_Item_Price where
  Id : Option Int := none
  deriving DecidableEq, Repr

/-- Go `datatypes.Product_Item`. -/
structure Product_Item where
  KeyName : Option String := none
  Prices : List Product_Item_Price := []
  deriving DecidableEq, Repr

/-- Go `datatypes.Product_Package`. -/
structure Product_Package where
  Id : Option Int := none
  deriving DecidableEq, Repr

/-- Go `datatypes.Location`, as returned by `location.GetDatacenterByName`. -/
structure Location where
  Id : Option Int := none
  deriving DecidableEq, Repr

/-- Go `datatypes.Network_Vlan`. -/
structure Network_Vlan where
  Id : Option Int := none
  PrimarySubnetId : Option Int := none
  deriving DecidableEq, Repr

/-- Go `datatypes.Network_Component`. -/
structure Network_Component where
  NetworkVlanId : Option Int := none
  NetworkVlan : Option Network_Vlan := none
  deriving DecidableEq, Repr

/-- Go `datatypes.Hardware`. -/
structure Hardware where
  PrimaryNetworkComponent : Option Network_Component := none
  PrimaryBackendNetworkComponent : Option Network_Component := none
  deriving DecidableEq, Repr

/-- Go `datatypes.Container_Product_Order`. -/
structure Container_Product_Order where
  PackageId : Option Int := none
  Quantity : Option Int := none
  Prices : List Product_Item_Price := []
  Location : Option String := none
  Hardware : List Hardware := []
  deriving DecidableEq, Repr

/-- Go `datatypes.Container_Product_Order_Receipt`. -/
structure Container_Product_Order_Receipt where
  OrderId : Option Int := none
  deriving DecidableEq, Repr

/-- The remote services behind `meta` that `resourceSoftLayerLbVpxCreate`
uses, as answer functions, together with two parts of the program that are
outside this embedding. -/
structure Backend where
  /-- Upper-case mapping of the Go `unicode` package, for `strings.ToUpper`. -/
  unicodeToUpper : Char → Char
  /-- Answer of `product.GetPackageByType(sess, packageType)`. -/
  GetPackageByType : String → Except String Product_Package
  /-- Answer of `product.GetPackageProducts(sess, packageId)`. -/
  GetPackageProducts : Int → Except String (List Product_Item)
  /-- Answer of `location.GetDatacenterByName(sess, name, "id")`. -/
  GetDatacenterByName : String → Except String Location
  /-- Answer of the account service `GetNetworkVlans`, filtered by router host
  name and vlan number. -/
  GetNetworkVlans : String → Int → Except String (List Network_Vlan)
  /-- Answer of the account service `GetSubnets`, filtered by cidr and network
  identifier. -/
  GetSubnets : String → String → Except String (List Network_Subnet)
  /-- Answer of `productOrderService.PlaceOrder(&opts, false)`. -/
  PlaceOrder : Container_Product_Order → Except String Container_Product_Order_Receipt
  /-- Answers of the account service to the order-binding queries. -/
  GetApplicationDeliveryControllers :
    Int → Nat → Except String (List Network_Application_Delivery_Controller)
  /-- Attempt budget of the order-binding wait. -/
  waitBudget : Nat
  /-- Answer of `NADCService.Id(id).Mask("subnets[ipAddresses]").GetObject()` at
  its call number `n` (from 0). -/
  GetObjectSubnets : Int → Nat → Except String Network_Application_Delivery_Controller
  /-- Error of `NADCService.Id(id).GetLoadBalancers()` at its call number `n`
  (from 0). -/
  GetLoadBalancers : Int → Nat → Option String
  /-- Answer of the `GetObject` call of `resourceSoftLayerLbVpxRead`. -/
  GetObject : Int → Except String Network_Application_Delivery_Controller
  /-- Outcome of the attribute-setting part of `resourceSoftLayerLbVpxRead`
  (source lines 675-758), which is not embedded: nil, or a panic on a nil
  field. -/
  setAttributes : Network_Application_Delivery_Controller → Outcome Unit

/-- One pass of the body of the `for _, item := range items` loop for one of
the two keys: `if *itemKey == key { price = item.Prices[0] }`. -/
def selectPrice (item : Product_Item) (itemKey key : String) (price : Product_Item_Price) :
    Except String Product_Item_Price :=
  if itemKey = key then
    match item.Prices with
    | [] => .error "index out of range"
    | p :: _ => .ok p
  else .ok price

/-- The `for _, item := range items` loop of `findVPXPriceItems`; an
`Except.error` is a panic. -/
def findVPXPriceItemsLoop (nadcKey ipKey : String) :
    List Product_Item → Product_Item_Price → Product_Item_Price →
      Except String (Product_Item_Price × Product_Item_Price)
  | [], nadcItemPrice, ipItemPrice => .ok (nadcItemPrice, ipItemPrice)
  | item :: rest, nadcItemPrice, ipItemPrice =>
    match item.KeyName with
    | none => .error "nil pointer dereference"
    | some itemKey =>
      match selectPrice item itemKey nadcKey nadcItemPrice with
      | .error r => .error r
      | .ok nadcItemPrice =>
        match selectPrice item itemKey ipKey ipItemPrice with
        | .error r => .error r
        | .ok ipItemPrice => findVPXPriceItemsLoop nadcKey ipKey rest nadcItemPrice ipItemPrice

/-- Go `findVPXPriceItems`. -/
def findVPXPriceItems (version : String) (speed : Int) (plan : String) (ipCount : Int)
    (b : Backend) : Returns (List Product_Item_Price) :=
  -- Get VPX package type.
  match b.GetPackageByType "ADDITIONAL_SERVICES_APPLICATION_DELIVERY_APPLIANCE" with
  | .error err => .values [] (some err)
  | .ok productPackage =>
  match productPackage.Id with
  | none => .panic "nil pointer dereference"
  | some packageId =>
  -- Get VPX product items
  match b.GetPackageProducts packageId with
  | .error err => .values [] (some err)
  | .ok items =>
  -- Get VPX and static IP items
  let nadcKey := getVPXPriceItemKeyName b.unicodeToUpper version speed plan
  let ipKey := getPublicIpItemKeyName ipCount
  match findVPXPriceItemsLoop nadcKey ipKey items {} {} with
  | .error r => .panic r
  | .ok (nadcItemPrice, ipItemPrice) =>
  let errorMessages : List String :=
    (if nadcItemPrice.Id = none then ["VPX version, speed or plan have incorrect values"]
      else []) ++
    (if ipItemPrice.Id = none then ["IP quantity value is incorrect"] else [])
  if errorMessages.length > 0 then .values [] (some (stringsJoin errorMessages "\n"))
  else .values [{ Id := nadcItemPrice.Id }, { Id := ipItemPrice.Id }] none

/-- The last item of the catalogue whose key name is `key`, if any
(specification side). -/
def lastWithKey (items : List Product_Item) (key : String) : Option Product_Item :=
  (items.filter (fun item => decide (item.KeyName = some key))).getLast?

/-! ## Creating the appliance -/

/-- What `resourceSoftLayerLbVpxCreate` reads from `*schema.ResourceData`;
the fields are named after the schema keys. -/
structure OrderData where
  version : String
  speed : Int
  plan : String
  ip_count : Int
  datacenter : String
  front_end_vlan_vlan_number : String := ""
  front_end_vlan_primary_router_hostname : String := ""
  front_end_subnet : String := ""
  back_end_vlan_vlan_number : String := ""
  back_end_vlan_primary_router_hostname : String := ""
  back_end_subnet : String := ""
  deriving DecidableEq, Repr

/-- Go `getVlanId`. -/
def getVlanId (vlanNumber : Int) (primaryRouterHostname : String) (b : Backend) :
    Outcome Int :=
  match b.GetNetworkVlans primaryRouterHostname vlanNumber with
  | .error err => .error ("Error looking up Vlan: " ++ err)
  | .ok networkVlan =>
    match networkVlan with
    | [] =>
      .error ("Unable to locate a vlan matching the provided router hostname and vlan number: "
        ++ primaryRouterHostname ++ "/" ++ toString vlanNumber)
    | vlan :: _ =>
      match vlan.Id with
      | none => .panic "nil pointer dereference"
      | some id => .ok id

/-- Go `getSubnetId`. -/
def getSubnetId (subnet : String) (b : Backend) : Outcome Int :=
  match stringsSplit subnet (Char.ofNat 47) with
  | [networkIdentifier, cidr] =>
    match b.GetSubnets cidr networkIdentifier with
    | .error err => .error ("Error looking up Subnet: " ++ err)
    | .ok subnets =>
      match subnets with
      | [] => .error ("Unable to locate a subnet matching the provided subnet: " ++ subnet)
      | found :: _ =>
        match found.Id with
        | none => .panic "nil pointer dereference"
        | some id => .ok id
  | _ => .error ("Unable to parse the provided subnet: " ++ subnet)

/-- The block that `prepareHardwareOptions` runs once for the front end and
once for the back end: the network component for a vlan number, router host
name and subnet. -/
def prepareNetworkComponent (vlan_number primary_router_hostname subnet : String)
    (b : Backend) : Outcome (Option Network_Component) :=
  let component : Option Network_Component :=
    if vlan_number.length > 0 ∨ subnet.length > 0 then some {} else none
  let withVlan : Outcome (Option Network_Component) :=
    if vlan_number.length > 0 then
      match Atoi vlan_number with
      | (_, some err) =>
        .error ("Error creating network application delivery controller: " ++ err)
      | (vlanNumber, none) =>
        match getVlanId vlanNumber primary_router_hostname b with
        | .panic r => .panic r
        | .error err =>
          .error ("Error creating network application delivery controller: " ++ err)
        | .ok networkVlanId =>
          .ok (component.map (fun c => { c with NetworkVlanId := some networkVlanId }))
    else .ok component
  match withVlan with
  | .panic r => .panic r
  | .error err => .error err
  | .ok component =>
    if subnet.length > 0 then
      match getSubnetId subnet b with
      | .panic r => .panic r
      | .error err =>
        .error ("Error creating network application delivery controller: " ++ err)
      | .ok primarySubnetId =>
        .ok (component.map (fun c =>
          { c with NetworkVlan := some { PrimarySubnetId := some primarySubnetId } }))
    else .ok component

/-- Go `prepareHardwareOptions`. -/
def prepareHardwareOptions (d : OrderData) (b : Backend) : Outcome (List Hardware) :=
  match prepareNetworkComponent d.front_end_vlan_vlan_number
      d.front_end_vlan_primary_router_hostname d.front_end_subnet b with
  | .panic r => .panic r
  | .error err => .error err
  | .ok front =>
    match prepareNetworkComponent d.back_end_vlan_vlan_number
        d.back_end_vlan_primary_router_hostname d.back_end_subnet b with
    | .panic r => .panic r
    | .error err => .error err
    | .ok back => .ok [{ PrimaryNetworkComponent := front, PrimaryBackendNetworkComponent := back }]

/-- A remote call or a sleep of `resourceSoftLayerLbVpxCreate`, from the order
on. -/
inductive Step where
  | PlaceOrder (opts : Container_Product_Order)
  | GetApplicationDeliveryControllers (orderId : Int)
  | GetObject (id : Int) (mask : String)
  | GetLoadBalancers (id : Int)
  | Sleep (seconds : Nat)
  deriving DecidableEq, Repr

/-- The object mask of the virtual-IP wait. -/
def VIP_MASK : String := "subnets[ipAddresses]"

/-- The object mask of `resourceSoftLayerLbVpxRead`. -/
def READ_MASK : String :=
  "id,name,type[name],datacenter,networkVlans[primaryRouter],networkVlans[primarySubnets],subnets[ipAddresses],description"

/-- Source lines 553-582 of `resourceSoftLayerLbVpxCreate`: the order
container with the prices, the data centre and the hardware options. -/
def orderOptions (d : OrderData) (b : Backend) : Outcome Container_Product_Order :=
  match findVPXPriceItems d.version d.speed d.plan d.ip_count b with
  | .panic r => .panic r
  | .values _ (some err) =>
    .error ("Error Cannot find Application Delivery Controller prices \x27" ++ err ++ "\x27.")
  | .values prices none =>
  let location : Outcome (Option String) :=
    if d.datacenter.length > 0 then
      match b.GetDatacenterByName d.datacenter with
      | .error err =>
        .error ("Error creating network application delivery controller: " ++ err)
      | .ok datacenter =>
        match datacenter.Id with
        | none => .panic "nil pointer dereference"
        | some id => .ok (some (Itoa id))
    else .ok none
  match location with
  | .panic r => .panic r
  | .error err => .error err
  | .ok location =>
  match prepareHardwareOptions d b with
  | .panic r => .panic r
  | .error err => .error ("Error Cannot get hardware options \x27" ++ err ++ "\x27.")
  | .ok hardware =>
    .ok { PackageId := some PACKAGE_ID_APPLICATION_DELIVERY_CONTROLLER, Quantity := some 1,
          Prices := prices, Location := location, Hardware := hardware }

/-- Source lines 546-606 of `resourceSoftLayerLbVpxCreate`: the order
container, the order, the order-binding wait and the id.  Returns the string
`d.Id()` with the parsed `id`, and the steps made. -/
def createOrderAndBind (d : OrderData) (b : Backend) : Outcome (String × Int) × List Step :=
  match orderOptions d b with
  | .panic r => (.panic r, [])
  | .error err => (.error err, [])
  | .ok opts =>
  match b.PlaceOrder opts with
  | .error err =>
    (.error ("Error creating network application delivery controller: " ++ err),
      [.PlaceOrder opts])
  | .ok receipt =>
  match receipt.OrderId with
  | none => (.panic "nil pointer dereference", [.PlaceOrder opts])
  | some orderId =>
  -- Wait VPX provisioning
  let found := findVPXByOrderId b.GetApplicationDeliveryControllers b.waitBudget orderId
  let steps := Step.PlaceOrder opts ::
    List.replicate found.queries (Step.GetApplicationDeliveryControllers orderId)
  match found.result with
  | .panic r => (.panic r, steps)
  | .error err =>
    (.error ("Error creating network application delivery controller: " ++ err), steps)
  | .ok VPX =>
  match VPX.Id with
  | none => (.panic "nil pointer dereference", steps)
  | some vpxId =>
  -- d.SetId(fmt.Sprintf("%d", *VPX.Id)); id, err := strconv.Atoi(d.Id())
  match Atoi (toString vpxId) with
  | (_, some err) => (.error ("Not a valid ID, must be an integer: " ++ err), steps)
  | (id, none) => (.ok (toString vpxId, id), steps)

/-- What one of the two counting loops did: the error with which the
function returned from inside the loop (if it did), the value of the ready
flag after the loop, and the steps made. -/
structure LoopRun where
  exit : Option String
  ready : Bool
  trace : List Step
  deriving DecidableEq, Repr

/-- Source lines 617-620: the `ipCount` of one answer of the directory. -/
def vipIpCount (getObjectResult : Network_Application_Delivery_Controller) : Nat :=
  match getObjectResult.Subnets with
  | [] => 0
  | first :: _ => first.IpAddresses.length

/-- The loop `for vipWaitCount := 0; vipWaitCount < 60; vipWaitCount++`
(source lines 611-627), entered with `fuel = 60 - vipWaitCount` iterations
left. -/
def vipWaitLoop (getObject : Nat → Except String Network_Application_Delivery_Controller)
    (id : Int) : Nat → Nat → LoopRun
  | 0, _ => ⟨none, false, []⟩
  | fuel + 1, vipWaitCount =>
    match getObject vipWaitCount with
    | .error err =>
      ⟨some ("Error retrieving network application delivery controller: " ++ err), false,
        [.GetObject id VIP_MASK]⟩
    | .ok getObjectResult =>
      if vipIpCount getObjectResult > 0 then ⟨none, true, [.GetObject id VIP_MASK]⟩
      else
        ⟨(vipWaitLoop getObject id fuel (vipWaitCount + 1)).exit,
          (vipWaitLoop getObject id fuel (vipWaitCount + 1)).ready,
          .GetObject id VIP_MASK :: .Sleep 10 ::
            (vipWaitLoop getObject id fuel (vipWaitCount + 1)).trace⟩

/-- The loop `for restWaitCount := 0; restWaitCount < 60; restWaitCount++`
(source lines 637-645), entered with `fuel = 60 - restWaitCount` iterations
left. -/
def restWaitLoop (getLoadBalancers : Nat → Option String) (id : Int) : Nat → Nat → LoopRun
  | 0, _ => ⟨none, false, []⟩
  | fuel + 1, restWaitCount =>
    match getLoadBalancers restWaitCount with
    | none => ⟨none, true, [.GetLoadBalancers id]⟩
    | some _ =>
      ⟨none, (restWaitLoop getLoadBalancers id fuel (restWaitCount + 1)).ready,
        .GetLoadBalancers id :: .Sleep 10 ::
          (restWaitLoop getLoadBalancers id fuel (restWaitCount + 1)).trace⟩

/-- Go `resourceSoftLayerLbVpxRead` up to the directory read; the
attribute-setting remainder is `b.setAttributes`. -/
def resourceSoftLayerLbVpxRead (dId : String) (b : Backend) : Outcome Unit × List Step :=
  match Atoi dId with
  | (_, some err) => (.error ("Not a valid ID, must be an integer: " ++ err), [])
  | (id, none) =>
    match b.GetObject id with
    | .error err =>
      (.error ("Error retrieving network application delivery controller: " ++ err),
        [.GetObject id READ_MASK])
    | .ok getObjectResult => (b.setAttributes getObjectResult, [.GetObject id READ_MASK])

/-- What a run of `resourceSoftLayerLbVpxCreate` did: the returned error and
the steps made, in order. -/
structure CreateRun where
  err : Outcome Unit
  trace : List Step
  deriving DecidableEq, Repr

/-- The virtual-IP wait of `resourceSoftLayerLbVpxCreate` (source lines
608-627): the loop entered with `vipWaitCount = 0`. -/
def vipWait (b : Backend) (id : Int) : LoopRun :=
  vipWaitLoop (b.GetObjectSubnets id) id 60 0

/-- The management-API wait of `resourceSoftLayerLbVpxCreate` (source lines
633-645): the loop entered with `restWaitCount = 0`. -/
def restWait (b : Backend) (id : Int) : LoopRun :=
  restWaitLoop (b.GetLoadBalancers id) id 60 0

/-- Go `resourceSoftLayerLbVpxCreate`. -/
def resourceSoftLayerLbVpxCreate (d : OrderData) (b : Backend) : CreateRun :=
  match createOrderAndBind d b with
  | (.panic r, steps) => ⟨.panic r, steps⟩
  | (.error err, steps) => ⟨.error err, steps⟩
  | (.ok (dId, id), steps) =>
  -- Wait Virtual IP provisioning
  let vip := vipWait b id
  match vip.exit with
  | some err => ⟨.error err, steps ++ vip.trace⟩
  | none =>
  if !vip.ready then
    ⟨.error ("Failed to create VIPs for Netscaler VPX ID: " ++ toString id),
      steps ++ vip.trace⟩
  else
  -- Wait VPX service initializing.
  let rest := restWait b id
  if !rest.ready then
    ⟨.error ("Failed to intialize VPX REST Service for Netscaler VPX ID: " ++ toString id),
      steps ++ vip.trace ++ rest.trace⟩
  else
  -- Wait additional buffer time for VPX service.
  let read := resourceSoftLayerLbVpxRead dId b
  ⟨read.1, steps ++ vip.trace ++ rest.trace ++ [.Sleep 60] ++ read.2⟩

/-! ## Reading a trace of `resourceSoftLayerLbVpxCreate` (specification side) -/

/-- The step is a directory read of the virtual-IP wait. -/
def Step.isVipRead : Step → Bool
  | .GetObject _ mask => mask == VIP_MASK
  | _ => false

/-- The step is a probe of the management API. -/
def Step.isProbe : Step → Bool
  | .GetLoadBalancers _ => true
  | _ => false

/-- The step is the 60-second settle delay. -/
def Step.isSettle : Step → Bool
  | .Sleep seconds => seconds == 60
  | _ => false

/-- The step is a 10-second sleep of a wait loop. -/
def Step.isPollSleep : Step → Bool
  | .Sleep seconds => seconds == 10
  | _ => false

/-- The step is the directory read of the final `Read`. -/
def Step.isFinalRead : Step → Bool
  | .GetObject _ mask => mask == READ_MASK
  | _ => false

/-- Seconds slept in a trace. -/
def elapsed : List Step → Nat
  | [] => 0
  | .Sleep seconds :: rest => seconds + elapsed rest
  | _ :: rest => elapsed rest

/-- The trace of `n` pending rounds of a wait loop: `n` times the poll `poll`
followed by a sleep of 10 seconds. -/
def pendingRounds (poll : Step) : Nat → List Step
  | 0 => []
  | n + 1 => poll :: .Sleep 10 :: pendingRounds poll n

/-- The number of IP addresses attached to the appliance over all of its
attached subnets. -/
def attachedIpCount (nadc : Network_Application_Delivery_Controller) : Nat :=
  (nadc.Subnets.map (fun subnet => subnet.IpAddresses.length)).sum

/-! ## Sample environments -/

/-- A directory with a primary (id 1) and a secondary (id 2). -/
def sampleDirectory : Directory := fun id =>
  if id = 1 then .ok (appliance 1 "10.0.0.1" "alpha")
  else if id = 2 then .ok (appliance 2 "10.0.0.2" "beta")
  else .error "SoftLayer_Exception_ObjectNotFound"

/-- A remote side on which every call succeeds. -/
def allOk : Env := fun _ _ => none

/-- A remote side on which the call number `k` (from 1) fails with `msg` and
every other call succeeds. -/
def failAt (k : Nat) (msg : String) : Env := fun t _ =>
  if t.length + 1 = k then some msg else none

/-- The true passwords that match `sampleDirectory`. -/
def sampleWorld : World := fun ip =>
  if ip = "10.0.0.1" then "alpha" else if ip = "10.0.0.2" then "beta" else ""

/-- An account service that finds nothing on the first two queries and two
appliances for the order on the third. -/
def ambiguousService : AccountService := fun _ n =>
  if n < 2 then .ok [] else .ok [appliance 1 "10.0.0.1" "alpha", appliance 2 "10.0.0.2" "beta"]

/-- Resource data of an update that configures appliance 2 as the secondary
of appliance 1. -/
def samplePairing : ResourceData :=
  { Id := "2", haSecondaryHasChange := true, haSecondaryCount := "2",
    haSecondaryPrimaryId := "1", haSecondaryPrimaryIdOld := "" }

/-- Resource data of an update that removes the pairing of appliance 2 with
appliance 1. -/
def sampleUnpairing : ResourceData :=
  { Id := "2", haSecondaryHasChange := true, haSecondaryCount := "0",
    haSecondaryPrimaryId := "", haSecondaryPrimaryIdOld := "1" }

/-- An appliance whose first subnet has no address and whose second subnet
has one. -/
def sampleSecondSubnetOnly : Network_Application_Delivery_Controller :=
  { Id := some 7, Subnets := [{ IpAddresses := [] }, { IpAddresses := [{ IpAddress := some "10.1.1.5" }] }] }

/-- An appliance whose first subnet has one address. -/
def sampleOneAddress : Network_Application_Delivery_Controller :=
  { Id := some 7, Subnets := [{ IpAddresses := [{ IpAddress := some "10.1.1.5" }] }] }

/-- An appliance without attached subnets. -/
def sampleNoAddress : Network_Application_Delivery_Controller :=
  { Id := some 7 }

/-- Resource data of an update whose configured `primary_id` is not an
integer. -/
def sampleBadPairing : ResourceData :=
  { Id := "2", haSecondaryHasChange := true, haSecondaryCount := "2",
    haSecondaryPrimaryId := "one", haSecondaryPrimaryIdOld := "" }

/-- A catalogue with the appliance item and the static-IP item of
`sampleOrder`. -/
def sampleCatalog : List Product_Item :=
  [ { KeyName := some "CITRIX_NETSCALER_VPX_10_5_200MBPS_STANDARD", Prices := [{ Id := some 1001 }] },
    { KeyName := some "4_STATIC_PUBLIC_IP_ADDRESSES", Prices := [{ Id := some 2002 }] } ]

/-- The order of a 200 Mbps standard VPX 10.5 with four addresses. -/
def sampleOrder : OrderData :=
  { version := "10.5", speed := 200, plan := "Standard", ip_count := 4, datacenter := "dal06" }

/-- A backend on which the order is bound to appliance 7 at the third query,
the virtual IP is attached from read number `vipReadyAt` on, and the
management API answers from probe number `restReadyAt` on (both from 0). -/
def sampleBackend (vipReadyAt restReadyAt : Nat) : Backend :=
  { unicodeToUpper := fun c => c
    GetPackageByType := fun _ => .ok { Id := some 192 }
    GetPackageProducts := fun _ => .ok sampleCatalog
    GetDatacenterByName := fun _ => .ok { Id := some 138124 }
    GetNetworkVlans := fun _ _ => .ok []
    GetSubnets := fun _ _ => .ok []
    PlaceOrder := fun _ => .ok { OrderId := some 55 }
    GetApplicationDeliveryControllers := fun _ n =>
      if n < 2 then .ok [] else .ok [sampleNoAddress]
    waitBudget := 120
    GetObjectSubnets := fun _ n =>
      if n < vipReadyAt then .ok sampleNoAddress else .ok sampleOneAddress
    GetLoadBalancers := fun _ n =>
      if n < restReadyAt then some "REST API is not available" else none
    GetObject := fun _ => .ok sampleOneAddress
    setAttributes := fun _ => .ok () }

/-- The sample backend with a directory that fails on the third read of the
virtual-IP wait. -/
def sampleBackendVipError : Backend :=
  { sampleBackend 99 0 with
    GetObjectSubnets := fun _ n =>
      if n < 2 then .ok sampleNoAddress else .error "SoftLayer_Exception: timeout" }

/-- A catalogue like `sampleCatalog` in which the appliance item has a first
price without an id and a second price with one. -/
def sampleCatalogFirstPriceWithoutId : List Product_Item :=
  [ { KeyName := some "CITRIX_NETSCALER_VPX_10_5_200MBPS_STANDARD",
      Prices := [{ Id := none }, { Id := some 1001 }] },
    { KeyName := some "4_STATIC_PUBLIC_IP_ADDRESSES", Prices := [{ Id := some 2002 }] } ]

/-- The sample backend with the catalogue `sampleCatalogFirstPriceWithoutId`. -/
def sampleBackendFirstPriceWithoutId : Backend :=
  { sampleBackend 0 0 with GetPackageProducts := fun _ => .ok sampleCatalogFirstPriceWithoutId }

/-! ## Basic facts -/

theorem getNitroClient_of_lookup {sess : Directory} {id : Int} {ip pw : String}
    (h : Lookup sess id ip pw) :
    getNitroClient sess id = .ok (NewNitroClient "http" ip CONFIG "root" pw true) := by
  obtain ⟨nadc, h1, h2, h3⟩ := h
  simp [getNitroClient, h1, h2, h3]

theorem firstFailure_okEvents (cs : List Call) : firstFailure (okEvents cs) = none := by
  induction cs with
  | nil => rfl
  | cons c cs ih => simp [okEvents, firstFailure] at ih ⊢; exact ih

theorem firstFailure_okEvents_append (cs : List Call) (c : Call) (e : String)
    (rest : List Event) :
    firstFailure (okEvents cs ++ ⟨c, some e⟩ :: rest) = some cs.length := by
  induction cs with
  | nil => simp [okEvents, firstFailure]
  | cons c' cs ih => simp [okEvents, firstFailure] at ih ⊢; exact ih

theorem calls_okEvents (cs : List Call) : calls (okEvents cs) = cs := by
  induction cs with
  | nil => rfl
  | cons c cs ih => simp [calls, okEvents] at ih ⊢; exact ih

theorem runScript_cases (env : Env) (cs : List Call) (t : List Event) :
    ((runScript env cs t).1 = none ∧ (runScript env cs t).2 = t ++ okEvents cs) ∨
    (∃ n e c, cs[n]? = some c ∧ (runScript env cs t).1 = some e ∧
      (runScript env cs t).2 = t ++ (okEvents (cs.take n) ++ [⟨c, some e⟩])) := by
  induction cs generalizing t with
  | nil => left; simp [runScript, okEvents]
  | cons c cs ih =>
    cases h : env t c with
    | some e =>
      right
      exact ⟨0, e, c, by simp, by simp [runScript, h], by simp [runScript, h, okEvents]⟩
    | none =>
      rcases ih (t ++ [⟨c, none⟩]) with ⟨h1, h2⟩ | ⟨n, e, c', hc, h1, h2⟩
      · left
        simp [runScript, h, h1, h2, okEvents]
      · right
        refine ⟨n + 1, e, c', by simpa using hc, by simp [runScript, h, h1], ?_⟩
        simp [runScript, h, h2, okEvents]

theorem runScript_firstFailure (env : Env) (cs : List Call) (k : Nat)
    (h : firstFailure (runScript env cs []).2 = some k) :
    ∃ e c, cs[k]? = some c ∧ (runScript env cs []).1 = some e ∧
      (runScript env cs []).2 = okEvents (cs.take k) ++ [⟨c, some e⟩] ∧
      calls (runScript env cs []).2 = cs.take (k + 1) := by
  rcases runScript_cases env cs [] with ⟨_, h2⟩ | ⟨n, e, c, hc, h1, h2⟩
  · rw [h2] at h
    simp [firstFailure_okEvents] at h
  · have hn : n < cs.length := by
      rcases Nat.lt_or_ge n cs.length with hlt | hge
      · exact hlt
      · simp [List.getElem?_eq_none hge] at hc
    rw [h2] at h
    simp only [List.nil_append] at h
    rw [firstFailure_okEvents_append] at h
    simp only [List.length_take, Option.some.injEq] at h
    have hk : n = k := by omega
    subst hk
    refine ⟨e, c, hc, h1, by simpa using h2, ?_⟩
    rw [h2]
    simp only [List.nil_append, calls, List.map_append, List.map_cons, List.map_nil]
    have := calls_okEvents (cs.take n)
    simp only [calls] at this
    rw [this]
    rw [List.take_succ, hc]
    rfl


theorem runScript_firstFailure_zero (env : Env) (c : Call) (cs : List Call) :
    firstFailure (runScript env (c :: cs) []).2 = some 0 ↔ (env [] c).isSome = true := by
  cases h : env [] c with
  | some e => simp [runScript, h, firstFailure]
  | none =>
    rcases runScript_cases env cs [⟨c, none⟩] with ⟨_, h2⟩ | ⟨n, e, c', _, _, h2⟩ <;>
      simp [runScript, h, h2, firstFailure]

/-- With both lookups succeeding, `nitroConfigureHA` is the script
`establishCalls` run until its first failure; the secondary client keeps its
stored password exactly when the first call fails. -/
theorem nitroConfigureHA_eq_script (env : Env) (sess : Directory)
    (primaryId secondaryId : Int) (ip1 pw1 ip2 pw2 : String)
    (h1 : Lookup sess primaryId ip1 pw1) (h2 : Lookup sess secondaryId ip2 pw2) :
    nitroConfigureHA env sess primaryId secondaryId =
      { err := toOutcome (runScript env (establishCalls ip1 pw1 ip2 pw2) []).1
        nClient1 := some (NewNitroClient "http" ip1 CONFIG "root" pw1 true)
        nClient2 := some (NewNitroClient "http" ip2 CONFIG "root"
          (if (env [] ⟨NewNitroClient "http" ip2 CONFIG "root" pw2 true, .Update,
            .SystemuserReq (some ⟨some "root", some pw1⟩), []⟩).isSome then pw2 else pw1) true)
        trace := (runScript env (establishCalls ip1 pw1 ip2 pw2) []).2 } := by
  simp only [nitroConfigureHA, getNitroClient_of_lookup h1, getNitroClient_of_lookup h2,
    NitroClient.Update, NitroClient.Add, NitroClient.send, establishCalls, runScript,
    NewNitroClient, List.nil_append, List.append_assoc, List.cons_append]
  iterate 8
    split
    · next heq =>
        simp only [Prod.mk.injEq] at heq
        obtain ⟨he, rfl⟩ := heq
        simp [he, toOutcome]
    rename_i heq
    simp only [Prod.mk.injEq] at heq
    obtain ⟨he, rfl⟩ := heq
    simp only [he, List.nil_append, List.append_assoc, List.cons_append]
  simp [toOutcome]

/-- With both lookups succeeding, `nitroDeleteHA` is the script
`teardownCalls` run until its first failure. -/
theorem nitroDeleteHA_eq_script (env : Env) (sess : Directory)
    (primaryId secondaryId : Int) (ip1 pw1 ip2 pw2 : String)
    (h1 : Lookup sess primaryId ip1 pw1) (h2 : Lookup sess secondaryId ip2 pw2) :
    nitroDeleteHA env sess primaryId secondaryId =
      { err := toOutcome (runScript env (teardownCalls ip1 pw1 ip2 pw2) []).1
        nClient1 := some (NewNitroClient "http" ip1 CONFIG "root" pw1 true)
        nClient2 := some (NewNitroClient "http" ip2 CONFIG "root" pw1 true)
        trace := (runScript env (teardownCalls ip1 pw1 ip2 pw2) []).2 } := by
  simp only [nitroDeleteHA, getNitroClient_of_lookup h1, getNitroClient_of_lookup h2,
    NitroClient.Update, NitroClient.Delete, NitroClient.send, teardownCalls, runScript,
    NewNitroClient, List.nil_append, List.append_assoc, List.cons_append]
  iterate 3
    split
    · next heq =>
        simp only [Prod.mk.injEq] at heq
        obtain ⟨he, rfl⟩ := heq
        simp [he, toOutcome]
    rename_i heq
    simp only [Prod.mk.injEq] at heq
    obtain ⟨he, rfl⟩ := heq
    simp only [he, List.nil_append, List.append_assoc, List.cons_append]
  simp [toOutcome]

theorem sampleDirectory_primary : Lookup sampleDirectory 1 "10.0.0.1" "alpha" :=
  ⟨appliance 1 "10.0.0.1" "alpha", rfl, rfl, rfl⟩

theorem sampleDirectory_secondary : Lookup sampleDirectory 2 "10.0.0.2" "beta" :=
  ⟨appliance 2 "10.0.0.2" "beta", rfl, rfl, rfl⟩

/-! ## Establish: the call sequence -/

/-- C1: when both lookups succeed and every control call succeeds,
`nitroConfigureHA` returns a nil error and issues exactly the eight calls of
`establishCalls`, in that order. -/
theorem nitroConfigureHA_success_sequence (env : Env) (sess : Directory)
    (primaryId secondaryId : Int) (ip1 pw1 ip2 pw2 : String)
    (h1 : Lookup sess primaryId ip1 pw1) (h2 : Lookup sess secondaryId ip2 pw2)
    (hall : ∀ t c, env t c = none) :
    (nitroConfigureHA env sess primaryId secondaryId).err = .ok () ∧
    calls (nitroConfigureHA env sess primaryId secondaryId).trace
      = establishCalls ip1 pw1 ip2 pw2 ∧
    (calls (nitroConfigureHA env sess primaryId secondaryId).trace).length = 8 := by
  simp [nitroConfigureHA, getNitroClient_of_lookup h1, getNitroClient_of_lookup h2,
    NitroClient.Update, NitroClient.Add, NitroClient.send, hall, calls, establishCalls,
    NewNitroClient]

theorem nitroConfigureHA_success_sequence_witness :
    Lookup sampleDirectory 1 "10.0.0.1" "alpha" ∧ Lookup sampleDirectory 2 "10.0.0.2" "beta" ∧
    (∀ t c, allOk t c = none) ∧
    (nitroConfigureHA allOk sampleDirectory 1 2).err = .ok () ∧
    calls (nitroConfigureHA allOk sampleDirectory 1 2).trace
      = establishCalls "10.0.0.1" "alpha" "10.0.0.2" "beta" ∧
    (calls (nitroConfigureHA allOk sampleDirectory 1 2).trace).length = 8 :=
  ⟨sampleDirectory_primary, sampleDirectory_secondary, fun _ _ => rfl,
    nitroConfigureHA_success_sequence allOk sampleDirectory 1 2 "10.0.0.1" "alpha"
      "10.0.0.2" "beta" sampleDirectory_primary sampleDirectory_secondary (fun _ _ => rfl)⟩

/-- C2: if the k-th call (1 ≤ k ≤ 8) of `nitroConfigureHA` is the first one
to fail, the calls issued are exactly the first k calls of the successful
sequence, the first k-1 succeeded and the k-th returned the error that
`nitroConfigureHA` returns (a non-nil error), and nothing else is issued.
For k = 4 (the primary's own RPC-node update): the HA-node add was issued
once through each client, there is exactly one RPC-node update and no file
sync. -/
theorem nitroConfigureHA_abort_on_first_failure (env : Env) (sess : Directory)
    (primaryId secondaryId : Int) (ip1 pw1 ip2 pw2 : String)
    (h1 : Lookup sess primaryId ip1 pw1) (h2 : Lookup sess secondaryId ip2 pw2)
    (k : Nat) (hk1 : 1 ≤ k) (hk8 : k ≤ 8)
    (hfail : firstFailure (nitroConfigureHA env sess primaryId secondaryId).trace
      = some (k - 1)) :
    calls (nitroConfigureHA env sess primaryId secondaryId).trace
      = (establishCalls ip1 pw1 ip2 pw2).take k ∧
    (∃ e c, (establishCalls ip1 pw1 ip2 pw2)[k - 1]? = some c ∧
      (nitroConfigureHA env sess primaryId secondaryId).trace
        = okEvents ((establishCalls ip1 pw1 ip2 pw2).take (k - 1)) ++ [⟨c, some e⟩] ∧
      (nitroConfigureHA env sess primaryId secondaryId).err = .error e) ∧
    (nitroConfigureHA env sess primaryId secondaryId).err.isError = true ∧
    (k = 4 →
      (calls (nitroConfigureHA env sess primaryId secondaryId).trace).filter Call.isHanodeAdd
        = [⟨NewNitroClient "http" ip1 CONFIG "root" pw1 true, .Add,
            .HanodeReq (some ⟨some 2, some ip2⟩), []⟩,
           ⟨NewNitroClient "http" ip2 CONFIG "root" pw1 true, .Add,
            .HanodeReq (some ⟨some 2, some ip1⟩), []⟩] ∧
      ((calls (nitroConfigureHA env sess primaryId secondaryId).trace).filter
        Call.isRpcUpdate).length = 1 ∧
      (calls (nitroConfigureHA env sess primaryId secondaryId).trace).filter Call.isFileSync
        = []) := by
  rw [nitroConfigureHA_eq_script env sess primaryId secondaryId ip1 pw1 ip2 pw2 h1 h2]
    at hfail ⊢
  simp only at hfail ⊢
  obtain ⟨e, c, hc, he, ht, hcalls⟩ := runScript_firstFailure env _ _ hfail
  have hk : k - 1 + 1 = k := by omega
  rw [hk] at hcalls
  refine ⟨hcalls, ⟨e, c, hc, ht, by simp [he, toOutcome]⟩, by simp [he, toOutcome, Outcome.isError], ?_⟩
  intro h4
  subst h4
  rw [hcalls]
  simp [establishCalls, Call.isHanodeAdd, Call.isRpcUpdate, Call.isFileSync]

theorem nitroConfigureHA_abort_on_first_failure_witness :
    firstFailure (nitroConfigureHA (failAt 4 "rpc down") sampleDirectory 1 2).trace
      = some (4 - 1) ∧
    calls (nitroConfigureHA (failAt 4 "rpc down") sampleDirectory 1 2).trace
      = (establishCalls "10.0.0.1" "alpha" "10.0.0.2" "beta").take 4 ∧
    (nitroConfigureHA (failAt 4 "rpc down") sampleDirectory 1 2).err.isError = true :=
  have h : firstFailure (nitroConfigureHA (failAt 4 "rpc down") sampleDirectory 1 2).trace
      = some (4 - 1) := by rfl
  ⟨h, (nitroConfigureHA_abort_on_first_failure (failAt 4 "rpc down") sampleDirectory 1 2
      "10.0.0.1" "alpha" "10.0.0.2" "beta" sampleDirectory_primary sampleDirectory_secondary 4
      (by decide) (by decide) h).1,
    (nitroConfigureHA_abort_on_first_failure (failAt 4 "rpc down") sampleDirectory 1 2
      "10.0.0.1" "alpha" "10.0.0.2" "beta" sampleDirectory_primary sampleDirectory_secondary 4
      (by decide) (by decide) h).2.2.1⟩

theorem not_mem_okEvents (cs : List Call) (c : Call) (e : String) :
    (⟨c, some e⟩ : Event) ∉ okEvents cs := by
  simp [okEvents]

/-- The calls issued by a script are a prefix of the script. -/
theorem runScript_calls_prefix (env : Env) (cs : List Call) :
    ∃ n, calls (runScript env cs []).2 = cs.take n := by
  rcases runScript_cases env cs [] with ⟨_, h2⟩ | ⟨n, e, c, hc, _, h2⟩
  · exact ⟨cs.length, by rw [h2, List.nil_append, calls_okEvents, List.take_length]⟩
  · refine ⟨n + 1, ?_⟩
    rw [h2, List.nil_append, calls, List.map_append]
    have := calls_okEvents (cs.take n)
    simp only [calls] at this
    rw [this, List.take_succ, hc]
    rfl

theorem lookup_of_getNitroClient {sess : Directory} {id : Int} {c : NitroClient}
    (h : getNitroClient sess id = .ok c) : ∃ ip pw, Lookup sess id ip pw := by
  unfold getNitroClient at h
  split at h
  · cases h
  · next nadc hs =>
    split at h
    · cases h
    · next ip hip =>
      split at h
      · cases h
      · next pw hpw =>
        split at h
        · cases h
        · next password hpass =>
          refine ⟨ip, password, nadc, hs, hip, ?_⟩
          rw [hpw]
          cases pw
          simp at hpass
          simp [hpass]

/-- Some call of the script returned the error `e`: then the script stopped
there and returns `e`. -/
theorem runScript_error_of_mem (env : Env) (cs : List Call) (c : Call) (e : String)
    (h : (⟨c, some e⟩ : Event) ∈ (runScript env cs []).2) :
    (runScript env cs []).1 = some e := by
  rcases runScript_cases env cs [] with ⟨_, h2⟩ | ⟨n, e', c', _, h1, h2⟩
  · rw [h2] at h
    exact absurd (by simpa using h) (not_mem_okEvents cs c e)
  · rw [h2, List.nil_append, List.mem_append] at h
    rcases h with h | h
    · exact absurd h (not_mem_okEvents _ c e)
    · simp only [List.mem_singleton, Event.mk.injEq, Option.some.injEq] at h
      rw [h1, h.2]

/-- A script that returns no error issued all of its calls, successfully. -/
theorem runScript_ok (env : Env) (cs : List Call) (t : List Event)
    (h : (runScript env cs t).1 = none) : (runScript env cs t).2 = t ++ okEvents cs := by
  rcases runScript_cases env cs t with ⟨_, h2⟩ | ⟨n, e, c, _, h1, _⟩
  · exact h2
  · rw [h1] at h
    cases h

theorem toOutcome_eq_ok {r : Option String} (h : toOutcome r = .ok ()) : r = none := by
  cases r with
  | none => rfl
  | some e => simp [toOutcome] at h

/-! ## Establish: what the returned error says -/

/-- C3 (as stated, refuted): the same remote error "boom" injected at call 1
(password sync) and at call 2 (node registration) gives identical errors from
`nitroConfigureHA` and identical errors from `resourceSoftLayerLbVpxUpdate`,
so the returned error does not identify the category of the failed step. -/
theorem establish_error_category_counterexample :
    ((nitroConfigureHA (failAt 1 "boom") sampleDirectory 1 2).trace.getLast?.map
        (fun ev => (ev.result, ev.call.category)) = some (some "boom", .passwordSync)) ∧
    ((nitroConfigureHA (failAt 2 "boom") sampleDirectory 1 2).trace.getLast?.map
        (fun ev => (ev.result, ev.call.category)) = some (some "boom", .nodeRegistration)) ∧
    (nitroConfigureHA (failAt 1 "boom") sampleDirectory 1 2).err
      = (nitroConfigureHA (failAt 2 "boom") sampleDirectory 1 2).err ∧
    (resourceSoftLayerLbVpxUpdate (failAt 1 "boom") sampleDirectory samplePairing).err
      = (resourceSoftLayerLbVpxUpdate (failAt 2 "boom") sampleDirectory samplePairing).err ∧
    (resourceSoftLayerLbVpxUpdate (failAt 1 "boom") sampleDirectory samplePairing).err
      = .error "Error configuraing HA for netscaler: boom" := by
  refine ⟨by rfl, by rfl, by rfl, by rfl, by rfl⟩

/-- C3 (amended): when a remote call of Establish returns the error `e`,
`nitroConfigureHA` returns `e` unchanged, and an update that routes to
Establish returns the fixed text "Error configuraing HA for netscaler: "
followed by `e`, whichever step failed. -/
theorem establish_error_is_remote_error (env : Env) (sess : Directory) (d : ResourceData)
    (primaryId secondaryId : Int) (ip1 pw1 ip2 pw2 : String)
    (h1 : Lookup sess primaryId ip1 pw1) (h2 : Lookup sess secondaryId ip2 pw2)
    (hchange : d.haSecondaryHasChange = true) (hcount : (Atoi d.haSecondaryCount).1 > 0)
    (hp : Atoi d.haSecondaryPrimaryId = (primaryId, none))
    (hs : Atoi d.Id = (secondaryId, none))
    (c : Call) (e : String)
    (hfail : (⟨c, some e⟩ : Event) ∈ (nitroConfigureHA env sess primaryId secondaryId).trace) :
    (nitroConfigureHA env sess primaryId secondaryId).err = .error e ∧
    (resourceSoftLayerLbVpxUpdate env sess d).err
      = .error ("Error configuraing HA for netscaler: " ++ e) := by
  have herr : (nitroConfigureHA env sess primaryId secondaryId).err = .error e := by
    rw [nitroConfigureHA_eq_script env sess primaryId secondaryId ip1 pw1 ip2 pw2 h1 h2]
      at hfail ⊢
    simp only at hfail ⊢
    rw [runScript_error_of_mem env _ c e hfail]
    rfl
  refine ⟨herr, ?_⟩
  simp [resourceSoftLayerLbVpxUpdate, hchange, hcount, hp, hs, herr]

theorem establish_error_is_remote_error_witness :
    (nitroConfigureHA (failAt 8 "sync failed") sampleDirectory 1 2).err
      = .error "sync failed" ∧
    (resourceSoftLayerLbVpxUpdate (failAt 8 "sync failed") sampleDirectory samplePairing).err
      = .error ("Error configuraing HA for netscaler: " ++ "sync failed") :=
  establish_error_is_remote_error (failAt 8 "sync failed") sampleDirectory samplePairing 1 2
    "10.0.0.1" "alpha" "10.0.0.2" "beta" sampleDirectory_primary sampleDirectory_secondary
    rfl (by decide) (by rfl) (by rfl)
    ⟨NewNitroClient "http" "10.0.0.1" CONFIG "root" "alpha" true, .Add,
      .HafilesReq (some ⟨["all"]⟩), ["action=sync"]⟩ "sync failed"
    (by simp [nitroConfigureHA, getNitroClient, sampleDirectory, appliance, failAt,
      NitroClient.Update, NitroClient.Add, NitroClient.send, NewNitroClient])

/-! ## Establish: the cached passwords -/

/-- C4: after a successful `nitroConfigureHA` the secondary client holds the
password the primary client was created with and the primary client is
unchanged; when the first call fails, both clients are as they were
created. -/
theorem nitroConfigureHA_cached_password (env : Env) (sess : Directory)
    (primaryId secondaryId : Int) (ip1 pw1 ip2 pw2 : String)
    (h1 : Lookup sess primaryId ip1 pw1) (h2 : Lookup sess secondaryId ip2 pw2) :
    ((nitroConfigureHA env sess primaryId secondaryId).err = .ok () →
      (nitroConfigureHA env sess primaryId secondaryId).nClient2
        = some (NewNitroClient "http" ip2 CONFIG "root" pw1 true) ∧
      (nitroConfigureHA env sess primaryId secondaryId).nClient1
        = some (NewNitroClient "http" ip1 CONFIG "root" pw1 true)) ∧
    (firstFailure (nitroConfigureHA env sess primaryId secondaryId).trace = some 0 →
      (nitroConfigureHA env sess primaryId secondaryId).nClient2
        = some (NewNitroClient "http" ip2 CONFIG "root" pw2 true) ∧
      (nitroConfigureHA env sess primaryId secondaryId).nClient1
        = some (NewNitroClient "http" ip1 CONFIG "root" pw1 true)) := by
  rw [nitroConfigureHA_eq_script env sess primaryId secondaryId ip1 pw1 ip2 pw2 h1 h2]
  simp only [and_true]
  constructor
  · intro hok
    have hnone := toOutcome_eq_ok hok
    cases hfirst : env [] ⟨NewNitroClient "http" ip2 CONFIG "root" pw2 true, .Update,
        .SystemuserReq (some ⟨some "root", some pw1⟩), []⟩ with
    | none => simp
    | some e => simp [establishCalls, runScript, hfirst] at hnone
  · intro hzero
    rw [establishCalls, runScript_firstFailure_zero] at hzero
    simp [hzero]

theorem nitroConfigureHA_cached_password_witness :
    (nitroConfigureHA allOk sampleDirectory 1 2).nClient2
      = some (NewNitroClient "http" "10.0.0.2" CONFIG "root" "alpha" true) ∧
    (nitroConfigureHA allOk sampleDirectory 1 2).nClient1
      = some (NewNitroClient "http" "10.0.0.1" CONFIG "root" "alpha" true) ∧
    (nitroConfigureHA (failAt 1 "denied") sampleDirectory 1 2).nClient2
      = some (NewNitroClient "http" "10.0.0.2" CONFIG "root" "beta" true) :=
  ⟨((nitroConfigureHA_cached_password allOk sampleDirectory 1 2 "10.0.0.1" "alpha"
      "10.0.0.2" "beta" sampleDirectory_primary sampleDirectory_secondary).1 (by rfl)).1,
    ((nitroConfigureHA_cached_password allOk sampleDirectory 1 2 "10.0.0.1" "alpha"
      "10.0.0.2" "beta" sampleDirectory_primary sampleDirectory_secondary).1 (by rfl)).2,
    ((nitroConfigureHA_cached_password (failAt 1 "denied") sampleDirectory 1 2 "10.0.0.1"
      "alpha" "10.0.0.2" "beta" sampleDirectory_primary sampleDirectory_secondary).2
      (by rfl)).1⟩

/-! ## Establish: authentication of every call -/

theorem lt_length_of_getElem_eq_some {α : Type} {l : List α} {n : Nat} {a : α}
    (h : l[n]? = some a) : n < l.length := by
  rcases Nat.lt_or_ge n l.length with hlt | hge
  · exact hlt
  · simp [List.getElem?_eq_none hge] at h

/-- Every prefix of the establish sequence that ends in a failed call is
authentic in a world that agrees with the directory. -/
theorem establish_prefix_authentic (w : World) (ip1 pw1 ip2 pw2 : String)
    (hw1 : w ip1 = pw1) (hw2 : w ip2 = pw2) (n : Nat) (c : Call) (e : String)
    (hc : (establishCalls ip1 pw1 ip2 pw2)[n]? = some c) :
    allAuthentic w (okEvents ((establishCalls ip1 pw1 ip2 pw2).take n) ++ [⟨c, some e⟩]) := by
  have hn : n < 8 := lt_length_of_getElem_eq_some hc
  interval_cases n <;>
    simp [establishCalls] at hc <;>
    subst hc <;>
    simp [establishCalls, allAuthentic, okEvents, World.step, authentic, NewNitroClient,
      Function.update_apply, hw1, hw2]

/-- The whole successful establish sequence is authentic in a world that
agrees with the directory. -/
theorem establish_all_authentic (w : World) (ip1 pw1 ip2 pw2 : String)
    (hw1 : w ip1 = pw1) (hw2 : w ip2 = pw2) :
    allAuthentic w (okEvents (establishCalls ip1 pw1 ip2 pw2)) := by
  simp [establishCalls, allAuthentic, okEvents, World.step, authentic, NewNitroClient,
    Function.update_apply, hw1, hw2]

/-- C5: in a world where each appliance's true root password starts as the
directory reports it and changes only through a successful update of system
user `root`, every call that `nitroConfigureHA` issues authenticates with the
true password of the addressed appliance at that moment; the first call goes
to the secondary with the secondary's stored password, and every later call
to the secondary's address uses the primary's password. -/
theorem nitroConfigureHA_authentic (env : Env) (sess : Directory)
    (primaryId secondaryId : Int) (ip1 pw1 ip2 pw2 : String)
    (h1 : Lookup sess primaryId ip1 pw1) (h2 : Lookup sess secondaryId ip2 pw2)
    (w : World) (hw1 : w ip1 = pw1) (hw2 : w ip2 = pw2) :
    allAuthentic w (nitroConfigureHA env sess primaryId secondaryId).trace ∧
    (nitroConfigureHA env sess primaryId secondaryId).trace.head?.map (fun ev => ev.call.client)
      = some (NewNitroClient "http" ip2 CONFIG "root" pw2 true) ∧
    (∀ ev ∈ (nitroConfigureHA env sess primaryId secondaryId).trace.tail,
      ev.call.client.IpAddress = ip2 → ev.call.client.Password = pw1) := by
  rw [nitroConfigureHA_eq_script env sess primaryId secondaryId ip1 pw1 ip2 pw2 h1 h2]
  simp only
  rcases runScript_cases env (establishCalls ip1 pw1 ip2 pw2) [] with
    ⟨_, ht⟩ | ⟨n, e, c, hc, _, ht⟩
  · rw [ht, List.nil_append]
    refine ⟨establish_all_authentic w ip1 pw1 ip2 pw2 hw1 hw2, by rfl, ?_⟩
    simp [establishCalls, okEvents, NewNitroClient]
  · rw [ht, List.nil_append]
    have hn : n < 8 := lt_length_of_getElem_eq_some hc
    refine ⟨establish_prefix_authentic w ip1 pw1 ip2 pw2 hw1 hw2 n c e hc, ?_, ?_⟩
    · interval_cases n <;> simp [establishCalls] at hc <;> subst hc <;>
        simp [establishCalls, okEvents]
    · interval_cases n <;> simp [establishCalls] at hc <;> subst hc <;>
        simp [establishCalls, okEvents, NewNitroClient]

theorem nitroConfigureHA_authentic_witness :
    sampleWorld "10.0.0.1" = "alpha" ∧ sampleWorld "10.0.0.2" = "beta" ∧
    allAuthentic sampleWorld (nitroConfigureHA allOk sampleDirectory 1 2).trace ∧
    (nitroConfigureHA allOk sampleDirectory 1 2).trace.head?.map (fun ev => ev.call.client)
      = some (NewNitroClient "http" "10.0.0.2" CONFIG "root" "beta" true) ∧
    (∀ ev ∈ (nitroConfigureHA allOk sampleDirectory 1 2).trace.tail,
      ev.call.client.IpAddress = "10.0.0.2" → ev.call.client.Password = "alpha") :=
  ⟨rfl, rfl, nitroConfigureHA_authentic allOk sampleDirectory 1 2 "10.0.0.1" "alpha"
    "10.0.0.2" "beta" sampleDirectory_primary sampleDirectory_secondary sampleWorld rfl rfl⟩

/-! ## Teardown -/

/-- C6: when both lookups succeed and every control call succeeds,
`nitroDeleteHA` returns a nil error and issues exactly three calls: delete HA
node "2" on the secondary, delete HA node "2" on the primary, then set the
secondary's `root` password; and in every execution, every HA-node delete
that is issued is for node "2". -/
theorem nitroDeleteHA_sequence (env : Env) (sess : Directory) (primaryId secondaryId : Int) :
    (∀ ip1 pw1 ip2 pw2, Lookup sess primaryId ip1 pw1 → Lookup sess secondaryId ip2 pw2 →
      (∀ t c, env t c = none) →
      (nitroDeleteHA env sess primaryId secondaryId).err = .ok () ∧
      calls (nitroDeleteHA env sess primaryId secondaryId).trace
        = [ ⟨NewNitroClient "http" ip2 CONFIG "root" pw1 true, .Delete, .HanodeReq none, ["2"]⟩,
            ⟨NewNitroClient "http" ip1 CONFIG "root" pw1 true, .Delete, .HanodeReq none, ["2"]⟩,
            ⟨NewNitroClient "http" ip2 CONFIG "root" pw1 true, .Update,
              .SystemuserReq (some ⟨some "root", some pw2⟩), []⟩ ]) ∧
    (∀ c ∈ calls (nitroDeleteHA env sess primaryId secondaryId).trace,
      c.isHanodeDelete = true → c.args = ["2"]) := by
  constructor
  · intro ip1 pw1 ip2 pw2 h1 h2 hall
    simp [nitroDeleteHA, getNitroClient_of_lookup h1, getNitroClient_of_lookup h2,
      NitroClient.Update, NitroClient.Delete, NitroClient.send, hall, calls, NewNitroClient]
  · cases hg1 : getNitroClient sess primaryId with
    | panic r => simp [nitroDeleteHA, hg1, calls]
    | error msg => simp [nitroDeleteHA, hg1, calls]
    | ok nClient1 =>
      cases hg2 : getNitroClient sess secondaryId with
      | panic r => simp [nitroDeleteHA, hg1, hg2, calls]
      | error msg => simp [nitroDeleteHA, hg1, hg2, calls]
      | ok nClient2 =>
        obtain ⟨ip1, pw1, h1⟩ := lookup_of_getNitroClient hg1
        obtain ⟨ip2, pw2, h2⟩ := lookup_of_getNitroClient hg2
        rw [nitroDeleteHA_eq_script env sess primaryId secondaryId ip1 pw1 ip2 pw2 h1 h2]
        simp only
        obtain ⟨n, hn⟩ := runScript_calls_prefix env (teardownCalls ip1 pw1 ip2 pw2)
        rw [hn]
        intro c hc
        have hmem := List.mem_of_mem_take hc
        simp [teardownCalls] at hmem
        rcases hmem with h | h | h <;> subst h <;> simp [Call.isHanodeDelete]

theorem nitroDeleteHA_sequence_witness :
    (nitroDeleteHA allOk sampleDirectory 1 2).err = .ok () ∧
    calls (nitroDeleteHA allOk sampleDirectory 1 2).trace
      = [ ⟨NewNitroClient "http" "10.0.0.2" CONFIG "root" "alpha" true, .Delete,
            .HanodeReq none, ["2"]⟩,
          ⟨NewNitroClient "http" "10.0.0.1" CONFIG "root" "alpha" true, .Delete,
            .HanodeReq none, ["2"]⟩,
          ⟨NewNitroClient "http" "10.0.0.2" CONFIG "root" "alpha" true, .Update,
            .SystemuserReq (some ⟨some "root", some "beta"⟩), []⟩ ] :=
  (nitroDeleteHA_sequence allOk sampleDirectory 1 2).1 "10.0.0.1" "alpha" "10.0.0.2" "beta"
    sampleDirectory_primary sampleDirectory_secondary (fun _ _ => rfl)

/-- C7: if the k-th call (1 ≤ k ≤ 3) of `nitroDeleteHA` is the first one to
fail, the calls issued are exactly the first k calls of the successful
teardown sequence, the first k-1 succeeded, and `nitroDeleteHA` returns the
error of the k-th call.  For k = 1 (delete on the secondary fails) the only
call issued is that delete: no delete through the primary client and no
password update. -/
theorem nitroDeleteHA_abort_on_first_failure (env : Env) (sess : Directory)
    (primaryId secondaryId : Int) (ip1 pw1 ip2 pw2 : String)
    (h1 : Lookup sess primaryId ip1 pw1) (h2 : Lookup sess secondaryId ip2 pw2)
    (k : Nat) (hk1 : 1 ≤ k) (hk3 : k ≤ 3)
    (hfail : firstFailure (nitroDeleteHA env sess primaryId secondaryId).trace
      = some (k - 1)) :
    calls (nitroDeleteHA env sess primaryId secondaryId).trace
      = (teardownCalls ip1 pw1 ip2 pw2).take k ∧
    (∃ e c, (teardownCalls ip1 pw1 ip2 pw2)[k - 1]? = some c ∧
      (nitroDeleteHA env sess primaryId secondaryId).trace
        = okEvents ((teardownCalls ip1 pw1 ip2 pw2).take (k - 1)) ++ [⟨c, some e⟩] ∧
      (nitroDeleteHA env sess primaryId secondaryId).err = .error e) ∧
    (k = 1 →
      calls (nitroDeleteHA env sess primaryId secondaryId).trace
        = [⟨NewNitroClient "http" ip2 CONFIG "root" pw1 true, .Delete, .HanodeReq none, ["2"]⟩] ∧
      ((calls (nitroDeleteHA env sess primaryId secondaryId).trace).filter
        Call.isHanodeDelete).length = 1 ∧
      (calls (nitroDeleteHA env sess primaryId secondaryId).trace).filter Call.isSetPassword
        = []) := by
  rw [nitroDeleteHA_eq_script env sess primaryId secondaryId ip1 pw1 ip2 pw2 h1 h2]
    at hfail ⊢
  simp only at hfail ⊢
  obtain ⟨e, c, hc, he, ht, hcalls⟩ := runScript_firstFailure env _ _ hfail
  have hk : k - 1 + 1 = k := by omega
  rw [hk] at hcalls
  refine ⟨hcalls, ⟨e, c, hc, ht, by simp [he, toOutcome]⟩, ?_⟩
  intro h
  subst h
  rw [hcalls]
  simp [teardownCalls, Call.isHanodeDelete, Call.isSetPassword]

theorem nitroDeleteHA_abort_on_first_failure_witness :
    firstFailure (nitroDeleteHA (failAt 1 "busy") sampleDirectory 1 2).trace = some (1 - 1) ∧
    calls (nitroDeleteHA (failAt 1 "busy") sampleDirectory 1 2).trace
      = (teardownCalls "10.0.0.1" "alpha" "10.0.0.2" "beta").take 1 :=
  have h : firstFailure (nitroDeleteHA (failAt 1 "busy") sampleDirectory 1 2).trace
      = some (1 - 1) := by rfl
  ⟨h, (nitroDeleteHA_abort_on_first_failure (failAt 1 "busy") sampleDirectory 1 2
      "10.0.0.1" "alpha" "10.0.0.2" "beta" sampleDirectory_primary sampleDirectory_secondary 1
      (by decide) (by decide) h).1⟩

/-! ## Establish followed by Teardown -/

/-- C8: with a directory that control calls do not alter and true passwords
that change only through successful updates of system user `root`, a
successful `nitroConfigureHA` followed by a successful `nitroDeleteHA` leaves
the secondary's true password at its value before Establish; after Establish
it equals the primary's password; the third Teardown call sends the
secondary's original password; every Teardown call to the secondary's address
uses the primary's password, and every Teardown call is authentic when it is
issued. -/
theorem establish_teardown_roundtrip (env : Env) (sess : Directory)
    (primaryId secondaryId : Int) (ip1 pw1 ip2 pw2 : String)
    (h1 : Lookup sess primaryId ip1 pw1) (h2 : Lookup sess secondaryId ip2 pw2)
    (w : World) (hw1 : w ip1 = pw1) (hw2 : w ip2 = pw2)
    (hE : (nitroConfigureHA env sess primaryId secondaryId).err = .ok ())
    (hT : (nitroDeleteHA (env.after (nitroConfigureHA env sess primaryId secondaryId).trace)
      sess primaryId secondaryId).err = .ok ()) :
    World.run w ((nitroConfigureHA env sess primaryId secondaryId).trace ++
      (nitroDeleteHA (env.after (nitroConfigureHA env sess primaryId secondaryId).trace)
        sess primaryId secondaryId).trace) ip2 = w ip2 ∧
    World.run w (nitroConfigureHA env sess primaryId secondaryId).trace ip2 = pw1 ∧
    (calls (nitroDeleteHA (env.after (nitroConfigureHA env sess primaryId secondaryId).trace)
        sess primaryId secondaryId).trace)[2]?
      = some ⟨NewNitroClient "http" ip2 CONFIG "root" pw1 true, .Update,
          .SystemuserReq (some ⟨some "root", some pw2⟩), []⟩ ∧
    (∀ c ∈ calls (nitroDeleteHA (env.after (nitroConfigureHA env sess primaryId secondaryId).trace)
        sess primaryId secondaryId).trace,
      c.client.IpAddress = ip2 → c.client.Password = pw1) ∧
    allAuthentic (World.run w (nitroConfigureHA env sess primaryId secondaryId).trace)
      (nitroDeleteHA (env.after (nitroConfigureHA env sess primaryId secondaryId).trace)
        sess primaryId secondaryId).trace := by
  rw [nitroDeleteHA_eq_script _ sess primaryId secondaryId ip1 pw1 ip2 pw2 h1 h2] at hT ⊢
  simp only at hT ⊢
  have hTt := runScript_ok _ _ _ (toOutcome_eq_ok hT)
  rw [hTt]
  rw [nitroConfigureHA_eq_script env sess primaryId secondaryId ip1 pw1 ip2 pw2 h1 h2]
    at hE ⊢
  simp only at hE ⊢
  have hEt := runScript_ok _ _ _ (toOutcome_eq_ok hE)
  rw [hEt]
  simp [establishCalls, teardownCalls, okEvents, calls, World.run, World.step, allAuthentic,
    authentic, NewNitroClient, Function.update_apply, hw1, hw2]

theorem establish_teardown_roundtrip_witness :
    World.run sampleWorld ((nitroConfigureHA allOk sampleDirectory 1 2).trace ++
      (nitroDeleteHA (allOk.after (nitroConfigureHA allOk sampleDirectory 1 2).trace)
        sampleDirectory 1 2).trace) "10.0.0.2" = sampleWorld "10.0.0.2" ∧
    World.run sampleWorld (nitroConfigureHA allOk sampleDirectory 1 2).trace "10.0.0.2"
      = "alpha" :=
  ⟨(establish_teardown_roundtrip allOk sampleDirectory 1 2 "10.0.0.1" "alpha" "10.0.0.2"
      "beta" sampleDirectory_primary sampleDirectory_secondary sampleWorld rfl rfl
      (by rfl) (by rfl)).1,
    (establish_teardown_roundtrip allOk sampleDirectory 1 2 "10.0.0.1" "alpha" "10.0.0.2"
      "beta" sampleDirectory_primary sampleDirectory_secondary sampleWorld rfl rfl
      (by rfl) (by rfl)).2.1⟩

/-! ## Update: the teardown error -/

/-- On the Teardown route of an update, an error returned by `nitroDeleteHA`
never reaches the caller: the update returns a nil error. -/
theorem update_teardown_error_dropped (env : Env) (sess : Directory) (d : ResourceData)
    (primaryId secondaryId : Int) (e : String)
    (hchange : d.haSecondaryHasChange = true) (hcount : ¬ (Atoi d.haSecondaryCount).1 > 0)
    (hp : Atoi d.haSecondaryPrimaryIdOld = (primaryId, none))
    (hs : Atoi d.Id = (secondaryId, none))
    (herr : (nitroDeleteHA env sess primaryId secondaryId).err = .error e) :
    (resourceSoftLayerLbVpxUpdate env sess d).err = .ok () := by
  simp [resourceSoftLayerLbVpxUpdate, hchange, hcount, hp, hs, herr]

/-- C9 (code evaluated at the failing input): with `ha_secondary` changed to
empty and the first Teardown call failing, `nitroDeleteHA` returns the error
"boom" and issues one call, yet `resourceSoftLayerLbVpxUpdate` returns a nil
error; the same failure on the Establish route is returned as an error. -/
theorem update_swallows_teardown_error :
    (nitroDeleteHA (failAt 1 "boom") sampleDirectory 1 2).err = .error "boom" ∧
    (resourceSoftLayerLbVpxUpdate (failAt 1 "boom") sampleDirectory sampleUnpairing).ha
      = some (nitroDeleteHA (failAt 1 "boom") sampleDirectory 1 2) ∧
    (resourceSoftLayerLbVpxUpdate (failAt 1 "boom") sampleDirectory sampleUnpairing).err
      = .ok () ∧
    (resourceSoftLayerLbVpxUpdate (failAt 1 "boom") sampleDirectory samplePairing).err
      = .error "Error configuraing HA for netscaler: boom" := by
  refine ⟨by rfl, by rfl, by rfl, by rfl⟩

/-! ## The order-binding wait -/

/-- While the predicate answers pending, the loop only advances. -/
theorem waitLoop_skip_pending {α : Type} (conf : StateChangeConf α) (j : Nat) :
    ∀ (fuel n : Nat), j ≤ fuel →
      (∀ i, i < j → conf.classify (conf.Refresh (n + i)) = .pending) →
      waitLoop conf fuel n = waitLoop conf (fuel - j) (n + j) := by
  induction j with
  | zero => intro fuel n _ _; simp
  | succ j ih =>
    intro fuel n hfuel hpend
    obtain ⟨fuel', rfl⟩ : ∃ f, fuel = f + 1 := ⟨fuel - 1, by omega⟩
    have h0 := hpend 0 (by omega)
    simp only [Nat.add_zero] at h0
    rw [waitLoop, h0]
    simp only
    rw [ih fuel' (n + 1) (by omega)
      (fun i hi => by have := hpend (i + 1) (by omega); rwa [Nat.add_assoc, Nat.add_comm 1 i])]
    congr 1
    · omega
    · omega

theorem findVPXByOrderId_pending_step (service : AccountService) (orderId : Int) (n : Nat)
    (h : service orderId n = .ok []) :
    (findVPXByOrderIdConf service orderId).classify
      ((findVPXByOrderIdConf service orderId).Refresh n) = .pending := by
  simp [findVPXByOrderIdConf, findVPXByOrderIdRefresh, StateChangeConf.classify, h]

/-- After `j` empty answers the wait has made `j` polls and continues. -/
theorem findVPXByOrderId_after_pending (service : AccountService) (budget : Nat)
    (orderId : Int) (j : Nat) (hj : j < budget)
    (hpend : ∀ i, i < j → service orderId i = .ok []) :
    WaitForState (findVPXByOrderIdConf service orderId) budget
      = waitLoop (findVPXByOrderIdConf service orderId) (budget - j - 1 + 1) j := by
  unfold WaitForState
  rw [waitLoop_skip_pending _ j budget 0 (by omega)
    (fun i hi => findVPXByOrderId_pending_step service orderId (0 + i)
      (by rw [Nat.zero_add]; exact hpend i hi))]
  congr 1
  · omega
  · omega

/-- C10: the predicate of `findVPXByOrderId` classifies a remote error as
fatal with that error, an empty list as pending with no value, a list of
exactly one appliance as ready with that appliance, and a list of two or
more appliances as fatal (never pending); and when, after any number of
empty answers within the budget, the directory reports a remote error, one
appliance, or several appliances, `findVPXByOrderId` returns respectively
that error, that appliance, or an error, and the directory is not queried
again. -/
theorem findVPXByOrderId_classification (service : AccountService) (orderId : Int) :
    (∀ n err, service orderId n = .error err →
      (findVPXByOrderIdConf service orderId).classify
        ((findVPXByOrderIdConf service orderId).Refresh n) = .fatal err) ∧
    (∀ n, service orderId n = .ok [] →
      (findVPXByOrderIdConf service orderId).classify
        ((findVPXByOrderIdConf service orderId).Refresh n) = .pending ∧
      ((findVPXByOrderIdConf service orderId).Refresh n).result = none) ∧
    (∀ n vpx, service orderId n = .ok [vpx] →
      (findVPXByOrderIdConf service orderId).classify
        ((findVPXByOrderIdConf service orderId).Refresh n) = .ready (some vpx)) ∧
    (∀ n vpxs, service orderId n = .ok vpxs → 2 ≤ vpxs.length →
      (findVPXByOrderIdConf service orderId).classify
        ((findVPXByOrderIdConf service orderId).Refresh n)
          = .fatal "Expected one VPX: %!s(<nil>)") ∧
    (∀ budget j, j < budget → (∀ i, i < j → service orderId i = .ok []) →
      (∀ err, service orderId j = .error err →
        findVPXByOrderId service budget orderId = ⟨.error err, j + 1⟩) ∧
      (∀ vpx, service orderId j = .ok [vpx] →
        findVPXByOrderId service budget orderId = ⟨.ok vpx, j + 1⟩) ∧
      (∀ vpxs, service orderId j = .ok vpxs → 2 ≤ vpxs.length →
        findVPXByOrderId service budget orderId
          = ⟨.error "Expected one VPX: %!s(<nil>)", j + 1⟩)) := by
  have hmany : ∀ n vpxs, service orderId n = .ok vpxs → 2 ≤ vpxs.length →
      (findVPXByOrderIdConf service orderId).classify
        ((findVPXByOrderIdConf service orderId).Refresh n)
          = .fatal "Expected one VPX: %!s(<nil>)" := by
    intro n vpxs h hlen
    match vpxs, hlen with
    | a :: b :: rest, _ =>
      simp [findVPXByOrderIdConf, findVPXByOrderIdRefresh, StateChangeConf.classify, h]
  have herr : ∀ n err, service orderId n = .error err →
      (findVPXByOrderIdConf service orderId).classify
        ((findVPXByOrderIdConf service orderId).Refresh n) = .fatal err := by
    intro n err h
    simp [findVPXByOrderIdConf, findVPXByOrderIdRefresh, StateChangeConf.classify, h]
  have hone : ∀ n vpx, service orderId n = .ok [vpx] →
      (findVPXByOrderIdConf service orderId).classify
        ((findVPXByOrderIdConf service orderId).Refresh n) = .ready (some vpx) := by
    intro n vpx h
    simp [findVPXByOrderIdConf, findVPXByOrderIdRefresh, StateChangeConf.classify, h]
  refine ⟨herr, ?_, hone, hmany, ?_⟩
  · intro n h
    refine ⟨findVPXByOrderId_pending_step service orderId n h, ?_⟩
    simp [findVPXByOrderIdConf, findVPXByOrderIdRefresh, h]
  · intro budget j hj hpend
    have hw := findVPXByOrderId_after_pending service budget orderId j hj hpend
    refine ⟨?_, ?_, ?_⟩
    · intro err h
      simp [findVPXByOrderId, hw, waitLoop, herr j err h]
    · intro vpx h
      simp [findVPXByOrderId, hw, waitLoop, hone j vpx h]
    · intro vpxs h hlen
      simp [findVPXByOrderId, hw, waitLoop, hmany j vpxs h hlen]

theorem findVPXByOrderId_classification_witness :
    findVPXByOrderId ambiguousService 120 7 = ⟨.error "Expected one VPX: %!s(<nil>)", 2 + 1⟩ :=
  ((findVPXByOrderId_classification ambiguousService 7).2.2.2.2 120 2 (by decide)
    (fun i hi => by simp [ambiguousService, hi])).2.2
    [appliance 1 "10.0.0.1" "alpha", appliance 2 "10.0.0.2" "beta"] (by rfl) (by decide)

/-! ## Decimal strings -/

theorem digitChar_isDigit (d : Nat) (h : d < 10) :
    (Nat.digitChar d).isDigit = true ∧ (Nat.digitChar d).toNat - 48 = d := by
  interval_cases d <;> exact ⟨by rfl, by rfl⟩

theorem toDigitsCore_eq (fuel : Nat) :
    ∀ n ds, n < fuel → Nat.toDigitsCore 10 fuel n ds = Nat.toDigits 10 n ++ ds := by
  induction fuel using Nat.strong_induction_on with
  | _ fuel ih =>
    intro n ds hn
    obtain ⟨f, rfl⟩ : ∃ f, fuel = f + 1 := ⟨fuel - 1, by omega⟩
    by_cases h0 : n / 10 = 0
    · simp [Nat.toDigits, Nat.toDigitsCore, h0]
    · have hlt : n / 10 < n := by omega
      have e1 : Nat.toDigitsCore 10 (f + 1) n ds
          = Nat.toDigitsCore 10 f (n / 10) (Nat.digitChar (n % 10) :: ds) := by
        simp [Nat.toDigitsCore, h0]
      have e2 : Nat.toDigits 10 n
          = Nat.toDigitsCore 10 n (n / 10) [Nat.digitChar (n % 10)] := by
        simp [Nat.toDigits, Nat.toDigitsCore, h0]
      rw [e1, e2, ih f (by omega) (n / 10) _ (by omega), ih n (by omega) (n / 10) _ hlt]
      simp

/-- The decimal digits of `n` are those of `n / 10` followed by the digit of
`n % 10`. -/
theorem toDigits_step (n : Nat) :
    Nat.toDigits 10 n = if n / 10 = 0 then [Nat.digitChar (n % 10)]
      else Nat.toDigits 10 (n / 10) ++ [Nat.digitChar (n % 10)] := by
  by_cases h0 : n / 10 = 0
  · simp [Nat.toDigits, Nat.toDigitsCore, h0]
  · have hlt : n / 10 < n := by omega
    have e2 : Nat.toDigits 10 n
        = Nat.toDigitsCore 10 n (n / 10) [Nat.digitChar (n % 10)] := by
      simp [Nat.toDigits, Nat.toDigitsCore, h0]
    rw [e2, toDigitsCore_eq n (n / 10) _ hlt]
    simp [h0]

theorem toDigits_ne_nil (n : Nat) : Nat.toDigits 10 n ≠ [] := by
  rw [toDigits_step]
  split <;> simp

theorem toDigits_all_digits (n : Nat) : ∀ c ∈ Nat.toDigits 10 n, c.isDigit = true := by
  induction n using Nat.strong_induction_on with
  | _ n ih =>
    intro c hc
    rw [toDigits_step] at hc
    have hd := (digitChar_isDigit (n % 10) (Nat.mod_lt _ (by decide))).1
    split at hc
    · simp at hc
      rw [hc]; exact hd
    · next h0 =>
      simp at hc
      rcases hc with hc | hc
      · exact ih (n / 10) (by omega) c hc
      · rw [hc]; exact hd

theorem foldl_toDigits (n : Nat) :
    (Nat.toDigits 10 n).foldl
      (fun acc ch => acc.bind (fun n =>
        if ch.isDigit = true then some (n * 10 + (ch.toNat - 48)) else none))
      (some 0) = some n := by
  induction n using Nat.strong_induction_on with
  | _ n ih =>
    rw [toDigits_step]
    have hd := digitChar_isDigit (n % 10) (Nat.mod_lt _ (by decide))
    split
    · next h0 =>
      simp [hd.1, hd.2]
      omega
    · next h0 =>
      rw [List.foldl_append, ih (n / 10) (by omega)]
      simp [hd.1, hd.2]
      omega

theorem parseDecimal_toDigits (n : Nat) : parseDecimal (Nat.toDigits 10 n) = some n := by
  unfold parseDecimal
  have hne := toDigits_ne_nil n
  have : (Nat.toDigits 10 n).isEmpty = false := by
    cases h : Nat.toDigits 10 n with
    | nil => exact absurd h hne
    | cons a l => rfl
  rw [this]
  simpa using foldl_toDigits n

theorem toDigits_head (n : Nat) :
    ∃ c rest, Nat.toDigits 10 n = c :: rest ∧ c.isDigit = true := by
  cases h : Nat.toDigits 10 n with
  | nil => exact absurd h (toDigits_ne_nil n)
  | cons a l =>
    exact ⟨a, l, rfl, toDigits_all_digits n a (by rw [h]; simp)⟩

/-- A 64-bit `int` survives the round trip through `fmt.Sprintf("%d", _)` and
`strconv.Atoi`. -/
theorem Atoi_toString (i : Int) (hlo : -(2 ^ 63) ≤ i) (hhi : i < 2 ^ 63) :
    Atoi (toString i) = (i, none) := by
  cases i with
  | ofNat m =>
    obtain ⟨c, rest, hcr, hc⟩ := toDigits_head m
    have hl : (toString (Int.ofNat m)).data = c :: rest := by rw [← hcr]; rfl
    have hm : c ≠ Char.ofNat 45 ∧ c ≠ Char.ofNat 43 := by
      constructor <;> (intro h; rw [h] at hc; revert hc; decide)
    have hp := parseDecimal_toDigits m
    rw [hcr] at hp
    have hlt : ¬ (9223372036854775808 ≤ m) := by
      have : (m : Int) < 2 ^ 63 := hhi
      omega
    simp only [Atoi, String.toList, hl, List.head?_cons, Option.some.injEq, hm.1, hm.2,
      or_self, if_false, hp, hlt, ge_iff_le]
    norm_num [hlt]
  | negSucc m =>
    have hl : (toString (Int.negSucc m)).data = Char.ofNat 45 :: Nat.toDigits 10 (m + 1) := rfl
    have hp := parseDecimal_toDigits (m + 1)
    have hle : ¬ (9223372036854775808 < m + 1) := by
      have h : -(2 ^ 63 : Int) ≤ Int.negSucc m := hlo
      rw [Int.negSucc_eq] at h
      omega
    simp only [Atoi, String.toList, hl, List.head?_cons, true_or, if_true, List.tail_cons, hp]
    norm_num [hle]
    rw [Int.negSucc_eq]
    ring

/-- The decimal text of an integer contains no dot. -/
theorem toString_int_no_dot (i : Int) : Char.ofNat 46 ∉ (toString i).data := by
  have hd : ∀ n : Nat, Char.ofNat 46 ∉ Nat.toDigits 10 n := by
    intro n h
    have := toDigits_all_digits n _ h
    revert this
    decide
  cases i with
  | ofNat m => exact hd m
  | negSucc m =>
    have hl : (toString (Int.negSucc m)).data = Char.ofNat 45 :: Nat.toDigits 10 (m + 1) := rfl
    rw [hl]
    intro h
    rcases List.mem_cons.mp h with h | h
    · revert h; decide
    · exact hd _ h

/-! ## Catalogue keys -/

/-- ASCII upper-casing never produces a dot from another character. -/
theorem toUpper_ne_dot (c : Char) (h : c ≠ Char.ofNat 46) : c.toUpper ≠ Char.ofNat 46 := by
  unfold Char.toUpper
  simp only
  split
  · next hr =>
    obtain ⟨h1, h2⟩ := hr
    generalize c.toNat = n at h1 h2
    interval_cases n <;> decide
  · exact h

theorem foldl_append_replace_data (l : List Char) (acc : String) :
    (List.foldl (fun r s => r ++ s) acc
      (l.map (fun c => if c = Char.ofNat 46 then DELIMITER else String.singleton c))).data
      = acc.data ++ l.map (fun c => if c = Char.ofNat 46 then Char.ofNat 95 else c) := by
  induction l generalizing acc with
  | nil => simp
  | cons c l ih =>
    rw [List.map_cons, List.foldl_cons, ih]
    by_cases h : c = Char.ofNat 46
    · simp [h, DELIMITER, String.data_append]
    · simp [h, String.data_append, String.singleton]

/-- Replacing every dot of the version by `DELIMITER` maps every dot on an
underscore and leaves the other characters. -/
theorem stringsReplaceAll_dot_data (s : String) :
    (stringsReplaceAll s (Char.ofNat 46) DELIMITER).data
      = s.data.map (fun c => if c = Char.ofNat 46 then Char.ofNat 95 else c) := by
  have := foldl_append_replace_data s.data ""
  simpa [stringsReplaceAll, String.join] using this

theorem getVPXPriceItemKeyName_data (unicodeToUpper : Char → Char) (version : String)
    (speed : Int) (plan : String) :
    (getVPXPriceItemKeyName unicodeToUpper version speed plan).data
      = "CITRIX_NETSCALER_VPX_".data
        ++ version.data.map (fun c => if c = Char.ofNat 46 then Char.ofNat 95 else c)
        ++ "_".data ++ (toString speed).data ++ "MBPS_".data
        ++ (stringsToUpper unicodeToUpper plan).data := by
  have h := stringsReplaceAll_dot_data version
  simp only [DELIMITER] at h
  simp only [getVPXPriceItemKeyName, stringsJoin, String.intercalate, String.intercalate.go,
    String.data_append, h, Itoa, DELIMITER]
  simp

/-- C18: `getVPXPriceItemKeyName` is "CITRIX_NETSCALER_VPX_", the version with
every dot replaced by an underscore, "_", the decimal speed, "MBPS_" and the
upper-cased plan; ("10.5", 200, "Standard") gives
"CITRIX_NETSCALER_VPX_10_5_200MBPS_STANDARD"; the key contains no dot when the
plan contains none (the upper-case mapping above ASCII giving no dot); and
`getPublicIpItemKeyName n` is the decimal `n` followed by
"_STATIC_PUBLIC_IP_ADDRESSES". -/
theorem price_item_key_names (unicodeToUpper : Char → Char) (version : String) (speed : Int)
    (plan : String) (n : Int) :
    getVPXPriceItemKeyName unicodeToUpper version speed plan
      = "CITRIX_NETSCALER_VPX_"
        ++ String.mk (version.data.map (fun c => if c = Char.ofNat 46 then Char.ofNat 95 else c))
        ++ "_" ++ toString speed ++ "MBPS_" ++ stringsToUpper unicodeToUpper plan ∧
    ((∀ c ∈ plan.data, c.toNat < 128) →
      stringsToUpper unicodeToUpper plan = String.mk (plan.data.map Char.toUpper)) ∧
    getVPXPriceItemKeyName unicodeToUpper "10.5" 200 "Standard"
      = "CITRIX_NETSCALER_VPX_10_5_200MBPS_STANDARD" ∧
    ((∀ c, 128 ≤ c.toNat → unicodeToUpper c ≠ Char.ofNat 46) →
      Char.ofNat 46 ∉ plan.data →
      Char.ofNat 46 ∉ (getVPXPriceItemKeyName unicodeToUpper version speed plan).data) ∧
    getPublicIpItemKeyName n = toString n ++ "_STATIC_PUBLIC_IP_ADDRESSES" := by
  refine ⟨?_, ?_, ?_, ?_, ?_⟩
  · apply String.ext
    rw [getVPXPriceItemKeyName_data]
    simp [String.data_append]
  · intro hascii
    apply String.ext
    simp only [stringsToUpper]
    apply List.map_congr_left
    intro c hc
    simp [hascii c hc]
  · rfl
  · intro hup hplan hmem
    rw [getVPXPriceItemKeyName_data] at hmem
    simp only [List.mem_append, List.mem_map] at hmem
    rcases hmem with ((((h | h) | h) | h) | h) | h
    · revert h; decide
    · obtain ⟨c, _, hc⟩ := h
      by_cases h46 : c = Char.ofNat 46
      · rw [if_pos h46] at hc; revert hc; decide
      · rw [if_neg h46] at hc; exact h46 hc
    · revert h; decide
    · exact toString_int_no_dot speed h
    · revert h; decide
    · simp only [stringsToUpper, List.mem_map] at h
      obtain ⟨c, hc, hcu⟩ := h
      by_cases hlt : c.toNat < 128
      · rw [if_pos hlt] at hcu
        have hne : c ≠ Char.ofNat 46 := fun h => hplan (h ▸ hc)
        exact toUpper_ne_dot c hne hcu
      · rw [if_neg hlt] at hcu
        exact hup c (by omega) hcu
  · apply String.ext
    simp [getPublicIpItemKeyName, stringsJoin, String.intercalate, String.intercalate.go,
      String.data_append, Itoa, DELIMITER]

theorem price_item_key_names_witness :
    Char.ofNat 46 ∉ (getVPXPriceItemKeyName (fun c => c) "10.5" 200 "Standard").data ∧
    getPublicIpItemKeyName 4 = toString (4 : Int) ++ "_STATIC_PUBLIC_IP_ADDRESSES" :=
  ⟨(price_item_key_names (fun c => c) "10.5" 200 "Standard" 4).2.2.2.1
      (by intro c hc h; rw [h] at hc; revert hc; decide) (by decide),
    (price_item_key_names (fun c => c) "10.5" 200 "Standard" 4).2.2.2.2⟩

/-! ## Price lookup -/

theorem selectPrice_ok (item : Product_Item) (itemKey key : String) (price p : Product_Item_Price)
    (rest : List Product_Item_Price) (hp : item.Prices = p :: rest) :
    selectPrice item itemKey key price = .ok (if itemKey = key then p else price) := by
  unfold selectPrice
  split <;> simp [hp]

theorem lastWithKey_cons (item : Product_Item) (rest : List Product_Item) (key : String) :
    lastWithKey (item :: rest) key =
      match lastWithKey rest key with
      | some found => some found
      | none => if item.KeyName = some key then some item else none := by
  unfold lastWithKey
  by_cases h : item.KeyName = some key
  · rw [List.filter_cons_of_pos (by simpa using h)]
    cases hf : List.filter (fun it => decide (it.KeyName = some key)) rest with
    | nil => simp [h]
    | cons a l =>
      cases hg : (a :: l).getLast? with
      | none => simp at hg
      | some found =>
        rw [List.getLast?_cons_cons, hg]
  · rw [List.filter_cons_of_neg (by simpa using h)]
    cases hl : (List.filter (fun it => decide (it.KeyName = some key)) rest).getLast? with
    | none => simp [h]
    | some found => simp

/-- No item is last with the key exactly when no item has the key. -/
theorem lastWithKey_eq_none (items : List Product_Item) (key : String) :
    lastWithKey items key = none ↔ ¬ ∃ item ∈ items, item.KeyName = some key := by
  induction items with
  | nil => simp [lastWithKey]
  | cons item rest ih =>
    rw [lastWithKey_cons]
    cases hl : lastWithKey rest key with
    | some found =>
      have hex : ∃ it ∈ rest, it.KeyName = some key := by
        by_contra hno
        rw [ih.mpr hno] at hl
        cases hl
      obtain ⟨it, hit, hk⟩ := hex
      constructor
      · intro h; cases h
      · intro hno; exact absurd ⟨it, by simp [hit], hk⟩ hno
    | none =>
      have hno := ih.mp hl
      by_cases h : item.KeyName = some key
      · simp only [h, if_true]
        constructor
        · intro h'; cases h'
        · intro hno'; exact absurd ⟨item, by simp, h⟩ hno'
      · simp only [h, if_false, true_iff]
        rintro ⟨it, hit, hk⟩
        rcases List.mem_cons.mp hit with rfl | hit
        · exact h hk
        · exact hno ⟨it, hit, hk⟩

/-- The last item with the key is an item of the catalogue and has the key. -/
theorem lastWithKey_mem (items : List Product_Item) (key : String) (found : Product_Item)
    (h : lastWithKey items key = some found) : found ∈ items ∧ found.KeyName = some key := by
  unfold lastWithKey at h
  have hm := List.mem_of_getLast?_eq_some h
  rw [List.mem_filter] at hm
  exact ⟨hm.1, by simpa using hm.2⟩

/-- On a catalogue whose items all have a key name and a first price, the
loop ends without a panic; a price whose key does not occur is left as it
was, and a key that occurs selects the first price of the last item with
that key. -/
theorem findVPXPriceItemsLoop_spec (nadcKey ipKey : String) (items : List Product_Item)
    (hitems : ∀ item ∈ items, ∃ key p rest, item.KeyName = some key ∧ item.Prices = p :: rest) :
    ∀ a b : Product_Item_Price, ∃ a' b',
      findVPXPriceItemsLoop nadcKey ipKey items a b = .ok (a', b') ∧
      ((¬ ∃ item ∈ items, item.KeyName = some nadcKey) → a' = a) ∧
      ((¬ ∃ item ∈ items, item.KeyName = some ipKey) → b' = b) ∧
      ((∃ item ∈ items, item.KeyName = some nadcKey) →
        ∃ item, lastWithKey items nadcKey = some item ∧ item.Prices.head? = some a') ∧
      ((∃ item ∈ items, item.KeyName = some ipKey) →
        ∃ item, lastWithKey items ipKey = some item ∧ item.Prices.head? = some b') := by
  induction items with
  | nil => intro a b; exact ⟨a, b, rfl, by simp, by simp, by simp, by simp⟩
  | cons item rest ih =>
    intro a b
    obtain ⟨key, p, ps, hkey, hprices⟩ := hitems item (by simp)
    have hrest : ∀ it ∈ rest, ∃ key p rest, it.KeyName = some key ∧ it.Prices = p :: rest :=
      fun it hit => hitems it (by simp [hit])
    obtain ⟨a', b', hloop, ha, hb, hna, hnb⟩ :=
      ih hrest (if key = nadcKey then p else a) (if key = ipKey then p else b)
    refine ⟨a', b', ?_, ?_, ?_, ?_, ?_⟩
    · simp [findVPXPriceItemsLoop, hkey, selectPrice_ok item key _ _ p ps hprices, hloop]
    · intro hno
      have hk : key ≠ nadcKey := fun h => hno ⟨item, by simp, by rw [hkey, h]⟩
      have hr : ¬ ∃ it ∈ rest, it.KeyName = some nadcKey :=
        fun ⟨it, hit, h⟩ => hno ⟨it, by simp [hit], h⟩
      rw [ha hr, if_neg hk]
    · intro hno
      have hk : key ≠ ipKey := fun h => hno ⟨item, by simp, by rw [hkey, h]⟩
      have hr : ¬ ∃ it ∈ rest, it.KeyName = some ipKey :=
        fun ⟨it, hit, h⟩ => hno ⟨it, by simp [hit], h⟩
      rw [hb hr, if_neg hk]
    · intro hyes
      by_cases hr : ∃ it ∈ rest, it.KeyName = some nadcKey
      · obtain ⟨it, hlast, h2⟩ := hna hr
        exact ⟨it, by rw [lastWithKey_cons, hlast], h2⟩
      · have hk : key = nadcKey := by
          obtain ⟨it, hit, h⟩ := hyes
          rcases List.mem_cons.mp hit with rfl | hit
          · rw [hkey] at h; exact Option.some.inj h
          · exact absurd ⟨it, hit, h⟩ hr
        refine ⟨item, ?_, ?_⟩
        · rw [lastWithKey_cons, (lastWithKey_eq_none rest nadcKey).mpr hr]
          simp [hkey, hk]
        · rw [ha hr, if_pos hk, hprices]
          rfl
    · intro hyes
      by_cases hr : ∃ it ∈ rest, it.KeyName = some ipKey
      · obtain ⟨it, hlast, h2⟩ := hnb hr
        exact ⟨it, by rw [lastWithKey_cons, hlast], h2⟩
      · have hk : key = ipKey := by
          obtain ⟨it, hit, h⟩ := hyes
          rcases List.mem_cons.mp hit with rfl | hit
          · rw [hkey] at h; exact Option.some.inj h
          · exact absurd ⟨it, hit, h⟩ hr
        refine ⟨item, ?_, ?_⟩
        · rw [lastWithKey_cons, (lastWithKey_eq_none rest ipKey).mpr hr]
          simp [hkey, hk]
        · rw [hb hr, if_pos hk, hprices]
          rfl

/-- C16 (as stated, refuted): in a catalogue where every item has a key name
and at least one price with an id, and where both the appliance key and the
static-IP key occur, `findVPXPriceItems` still returns the error "VPX
version, speed or plan have incorrect values" with an empty list, because the
first price of the appliance item has no id. -/
theorem findVPXPriceItems_first_price_counterexample :
    (∀ item ∈ sampleCatalogFirstPriceWithoutId,
      (∃ key, item.KeyName = some key) ∧ ∃ p ∈ item.Prices, p.Id ≠ none) ∧
    (∃ item ∈ sampleCatalogFirstPriceWithoutId, item.KeyName
      = some (getVPXPriceItemKeyName sampleBackendFirstPriceWithoutId.unicodeToUpper
          "10.5" 200 "Standard")) ∧
    (∃ item ∈ sampleCatalogFirstPriceWithoutId,
      item.KeyName = some (getPublicIpItemKeyName 4)) ∧
    sampleBackendFirstPriceWithoutId.GetPackageProducts 192
      = .ok sampleCatalogFirstPriceWithoutId ∧
    findVPXPriceItems "10.5" 200 "Standard" 4 sampleBackendFirstPriceWithoutId
      = .values [] (some "VPX version, speed or plan have incorrect values") := by
  refine ⟨?_, ⟨_, List.mem_cons_self _ _, by rfl⟩,
    ⟨_, List.mem_cons_of_mem _ (List.mem_cons_self _ _), by rfl⟩, by rfl, by rfl⟩
  intro item hi
  simp only [sampleCatalogFirstPriceWithoutId, List.mem_cons, List.mem_singleton,
    List.not_mem_nil, or_false] at hi
  rcases hi with rfl | rfl
  · exact ⟨⟨_, rfl⟩, ⟨{ Id := some 1001 }, by simp, by simp⟩⟩
  · exact ⟨⟨_, rfl⟩, ⟨{ Id := some 2002 }, by simp, by simp⟩⟩

/-- C16 (amended): with the catalogue lookups succeeding and every catalogue
item having a key name and a first price with an id, `findVPXPriceItems`
returns an error exactly when no item has the appliance key or no item has
the static-IP key; the message is "VPX version, speed or plan have incorrect
values" and/or "IP quantity value is incorrect" (both, joined by a newline,
in that order, when both keys are missing) and the returned list is empty;
otherwise it returns a nil error and exactly two prices: first the id of the
first price of the last item with the appliance key, then the id of the first
price of the last item with the static-IP key. -/
theorem findVPXPriceItems_result (version : String) (speed : Int) (plan : String)
    (ipCount : Int) (b : Backend) (productPackage : Product_Package) (packageId : Int)
    (items : List Product_Item)
    (hpkg : b.GetPackageByType "ADDITIONAL_SERVICES_APPLICATION_DELIVERY_APPLIANCE"
      = .ok productPackage)
    (hid : productPackage.Id = some packageId)
    (hprod : b.GetPackageProducts packageId = .ok items)
    (hitems : ∀ item ∈ items, ∃ key p rest,
      item.KeyName = some key ∧ item.Prices = p :: rest ∧ p.Id ≠ none) :
    ((∃ prices msg, findVPXPriceItems version speed plan ipCount b = .values prices (some msg)) ↔
      ((¬ ∃ item ∈ items, item.KeyName
          = some (getVPXPriceItemKeyName b.unicodeToUpper version speed plan)) ∨
        (¬ ∃ item ∈ items, item.KeyName = some (getPublicIpItemKeyName ipCount)))) ∧
    ((¬ ∃ item ∈ items, item.KeyName
        = some (getVPXPriceItemKeyName b.unicodeToUpper version speed plan)) →
      (¬ ∃ item ∈ items, item.KeyName = some (getPublicIpItemKeyName ipCount)) →
      findVPXPriceItems version speed plan ipCount b = .values []
        (some "VPX version, speed or plan have incorrect values\nIP quantity value is incorrect")) ∧
    ((¬ ∃ item ∈ items, item.KeyName
        = some (getVPXPriceItemKeyName b.unicodeToUpper version speed plan)) →
      (∃ item ∈ items, item.KeyName = some (getPublicIpItemKeyName ipCount)) →
      findVPXPriceItems version speed plan ipCount b = .values []
        (some "VPX version, speed or plan have incorrect values")) ∧
    ((∃ item ∈ items, item.KeyName
        = some (getVPXPriceItemKeyName b.unicodeToUpper version speed plan)) →
      (¬ ∃ item ∈ items, item.KeyName = some (getPublicIpItemKeyName ipCount)) →
      findVPXPriceItems version speed plan ipCount b = .values []
        (some "IP quantity value is incorrect")) ∧
    ((∃ item ∈ items, item.KeyName
        = some (getVPXPriceItemKeyName b.unicodeToUpper version speed plan)) →
      (∃ item ∈ items, item.KeyName = some (getPublicIpItemKeyName ipCount)) →
      ∃ nadcId ipId,
        findVPXPriceItems version speed plan ipCount b
          = .values [{ Id := some nadcId }, { Id := some ipId }] none ∧
        (∃ item, lastWithKey items
            (getVPXPriceItemKeyName b.unicodeToUpper version speed plan) = some item ∧
          item.Prices.head?.map (fun p => p.Id) = some (some nadcId)) ∧
        (∃ item, lastWithKey items (getPublicIpItemKeyName ipCount) = some item ∧
          item.Prices.head?.map (fun p => p.Id) = some (some ipId))) := by
  obtain ⟨a', b', hloop, ha, hb, hna, hnb⟩ :=
    findVPXPriceItemsLoop_spec (getVPXPriceItemKeyName b.unicodeToUpper version speed plan)
      (getPublicIpItemKeyName ipCount) items
      (fun item hi => by
        obtain ⟨key, p, rest, h1, h2, _⟩ := hitems item hi
        exact ⟨key, p, rest, h1, h2⟩) {} {}
  have hfirst : ∀ key item, lastWithKey items key = some item →
      ∀ p, item.Prices.head? = some p → ∃ i, p.Id = some i := by
    intro k item hl p hp
    obtain ⟨key, p', rest, _, h2, h3⟩ := hitems item (lastWithKey_mem items k item hl).1
    rw [h2] at hp
    simp at hp
    rw [← hp]
    exact Option.ne_none_iff_exists'.mp h3
  have hunfold : findVPXPriceItems version speed plan ipCount b
      = if ((if a'.Id = none then ["VPX version, speed or plan have incorrect values"] else [])
            ++ (if b'.Id = none then ["IP quantity value is incorrect"] else [])).length > 0
        then .values [] (some (stringsJoin
          ((if a'.Id = none then ["VPX version, speed or plan have incorrect values"] else [])
            ++ (if b'.Id = none then ["IP quantity value is incorrect"] else [])) "\n"))
        else .values [{ Id := a'.Id }, { Id := b'.Id }] none := by
    simp only [findVPXPriceItems, hpkg, hid, hprod, hloop]
  have c1 : (¬ ∃ item ∈ items, item.KeyName
        = some (getVPXPriceItemKeyName b.unicodeToUpper version speed plan)) →
      (¬ ∃ item ∈ items, item.KeyName = some (getPublicIpItemKeyName ipCount)) →
      findVPXPriceItems version speed plan ipCount b = .values []
        (some "VPX version, speed or plan have incorrect values\nIP quantity value is incorrect") := by
    intro h1 h2
    rw [hunfold, ha h1, hb h2]
    rfl
  have c2 : (¬ ∃ item ∈ items, item.KeyName
        = some (getVPXPriceItemKeyName b.unicodeToUpper version speed plan)) →
      (∃ item ∈ items, item.KeyName = some (getPublicIpItemKeyName ipCount)) →
      findVPXPriceItems version speed plan ipCount b = .values []
        (some "VPX version, speed or plan have incorrect values") := by
    intro h1 h2
    obtain ⟨it, hit, hh⟩ := hnb h2
    obtain ⟨i, hi⟩ := hfirst _ it hit b' hh
    rw [hunfold, ha h1, hi]
    rfl
  have c3 : (∃ item ∈ items, item.KeyName
        = some (getVPXPriceItemKeyName b.unicodeToUpper version speed plan)) →
      (¬ ∃ item ∈ items, item.KeyName = some (getPublicIpItemKeyName ipCount)) →
      findVPXPriceItems version speed plan ipCount b = .values []
        (some "IP quantity value is incorrect") := by
    intro h1 h2
    obtain ⟨it, hit, hh⟩ := hna h1
    obtain ⟨i, hi⟩ := hfirst _ it hit a' hh
    rw [hunfold, hb h2, hi]
    rfl
  have c4 : (∃ item ∈ items, item.KeyName
        = some (getVPXPriceItemKeyName b.unicodeToUpper version speed plan)) →
      (∃ item ∈ items, item.KeyName = some (getPublicIpItemKeyName ipCount)) →
      ∃ nadcId ipId,
        findVPXPriceItems version speed plan ipCount b
          = .values [{ Id := some nadcId }, { Id := some ipId }] none ∧
        (∃ item, lastWithKey items
            (getVPXPriceItemKeyName b.unicodeToUpper version speed plan) = some item ∧
          item.Prices.head?.map (fun p => p.Id) = some (some nadcId)) ∧
        (∃ item, lastWithKey items (getPublicIpItemKeyName ipCount) = some item ∧
          item.Prices.head?.map (fun p => p.Id) = some (some ipId)) := by
    intro h1 h2
    obtain ⟨it1, hit1, hh1⟩ := hna h1
    obtain ⟨i1, hi1⟩ := hfirst _ it1 hit1 a' hh1
    obtain ⟨it2, hit2, hh2⟩ := hnb h2
    obtain ⟨i2, hi2⟩ := hfirst _ it2 hit2 b' hh2
    refine ⟨i1, i2, ?_, ⟨it1, hit1, by rw [hh1]; simp [hi1]⟩,
      ⟨it2, hit2, by rw [hh2]; simp [hi2]⟩⟩
    rw [hunfold, hi1, hi2]
    rfl
  refine ⟨?_, c1, c2, c3, c4⟩
  constructor
  · rintro ⟨prices, msg, hres⟩
    by_contra hcon
    push_neg at hcon
    obtain ⟨i1, i2, h, _⟩ := c4 hcon.1 hcon.2
    rw [h] at hres
    cases hres
  · intro h
    by_cases h1 : ∃ item ∈ items, item.KeyName
        = some (getVPXPriceItemKeyName b.unicodeToUpper version speed plan)
    · by_cases h2 : ∃ item ∈ items, item.KeyName = some (getPublicIpItemKeyName ipCount)
      · rcases h with h | h
        · exact absurd h1 h
        · exact absurd h2 h
      · exact ⟨_, _, c3 h1 h2⟩
    · by_cases h2 : ∃ item ∈ items, item.KeyName = some (getPublicIpItemKeyName ipCount)
      · exact ⟨_, _, c2 h1 h2⟩
      · exact ⟨_, _, c1 h1 h2⟩

theorem sampleCatalog_wellformed :
    ∀ item ∈ sampleCatalog, ∃ key p rest,
      item.KeyName = some key ∧ item.Prices = p :: rest ∧ p.Id ≠ none := by
  intro item hi
  simp only [sampleCatalog, List.mem_cons, List.mem_singleton, List.not_mem_nil, or_false] at hi
  rcases hi with rfl | rfl <;> exact ⟨_, _, _, rfl, rfl, by simp⟩

theorem findVPXPriceItems_result_witness :
    ∃ nadcId ipId,
      findVPXPriceItems "10.5" 200 "Standard" 4 (sampleBackend 0 0)
        = .values [{ Id := some nadcId }, { Id := some ipId }] none ∧
      (∃ item, lastWithKey sampleCatalog
          (getVPXPriceItemKeyName (sampleBackend 0 0).unicodeToUpper "10.5" 200 "Standard")
            = some item ∧
        item.Prices.head?.map (fun p => p.Id) = some (some nadcId)) ∧
      (∃ item, lastWithKey sampleCatalog (getPublicIpItemKeyName 4) = some item ∧
        item.Prices.head?.map (fun p => p.Id) = some (some ipId)) :=
  (findVPXPriceItems_result "10.5" 200 "Standard" 4 (sampleBackend 0 0) { Id := some 192 } 192
    sampleCatalog rfl rfl rfl sampleCatalog_wellformed).2.2.2.2
    ⟨_, List.mem_cons_self _ _, by rfl⟩
    ⟨_, List.mem_cons_of_mem _ (List.mem_cons_self _ _), by rfl⟩

/-! ## The two counting loops -/

theorem countP_pendingRounds (q : Step → Bool) (poll : Step) (n : Nat) :
    (pendingRounds poll n).countP q
      = n * ((if q poll then 1 else 0) + (if q (.Sleep 10) then 1 else 0)) := by
  induction n with
  | zero => simp [pendingRounds]
  | succ n ih =>
    simp only [pendingRounds, List.countP_cons, ih]
    ring

theorem elapsed_append (t u : List Step) : elapsed (t ++ u) = elapsed t + elapsed u := by
  induction t with
  | nil => simp [elapsed]
  | cons s t ih =>
    cases s <;> simp [elapsed, ih, Nat.add_assoc]

theorem elapsed_pendingRounds_getObject (id : Int) (mask : String) (n : Nat) :
    elapsed (pendingRounds (.GetObject id mask) n) = n * 10 := by
  induction n with
  | zero => rfl
  | succ n ih => simp only [pendingRounds, elapsed, ih]; omega

theorem elapsed_pendingRounds_getLoadBalancers (id : Int) (n : Nat) :
    elapsed (pendingRounds (.GetLoadBalancers id) n) = n * 10 := by
  induction n with
  | zero => rfl
  | succ n ih => simp only [pendingRounds, elapsed, ih]; omega

/-- While the directory reports no attached address, the virtual-IP loop
reads, sleeps 10 seconds and goes on. -/
theorem vipWaitLoop_pending
    (getObject : Nat → Except String Network_Application_Delivery_Controller) (id : Int)
    (n : Nat) : ∀ (fuel k : Nat), n ≤ fuel →
      (∀ i, i < n → ∃ obj, getObject (k + i) = .ok obj ∧ vipIpCount obj = 0) →
      vipWaitLoop getObject id fuel k =
        ⟨(vipWaitLoop getObject id (fuel - n) (k + n)).exit,
          (vipWaitLoop getObject id (fuel - n) (k + n)).ready,
          pendingRounds (.GetObject id VIP_MASK) n ++
            (vipWaitLoop getObject id (fuel - n) (k + n)).trace⟩ := by
  induction n with
  | zero => intro fuel k _ _; simp [pendingRounds]
  | succ n ih =>
    intro fuel k hfuel hpend
    obtain ⟨f, rfl⟩ : ∃ f, fuel = f + 1 := ⟨fuel - 1, by omega⟩
    obtain ⟨obj, hobj, h0⟩ := hpend 0 (by omega)
    rw [Nat.add_zero] at hobj
    have hrec := ih f (k + 1) (by omega)
      (fun i hi => by
        have := hpend (i + 1) (by omega)
        rwa [Nat.add_assoc, Nat.add_comm 1 i])
    have e1 : f + 1 - (n + 1) = f - n := by omega
    have e2 : k + (n + 1) = k + 1 + n := by omega
    rw [e1, e2]
    conv_lhs => rw [vipWaitLoop]
    simp only [hobj, h0, Nat.lt_irrefl, if_false]
    rw [hrec]
    simp [pendingRounds]

/-- While the probe fails, the management-API loop probes, sleeps 10 seconds
and goes on. -/
theorem restWaitLoop_pending (getLoadBalancers : Nat → Option String) (id : Int)
    (n : Nat) : ∀ (fuel k : Nat), n ≤ fuel →
      (∀ i, i < n → (getLoadBalancers (k + i)).isSome = true) →
      restWaitLoop getLoadBalancers id fuel k =
        ⟨none, (restWaitLoop getLoadBalancers id (fuel - n) (k + n)).ready,
          pendingRounds (.GetLoadBalancers id) n ++
            (restWaitLoop getLoadBalancers id (fuel - n) (k + n)).trace⟩ := by
  induction n with
  | zero =>
    intro fuel k _ _
    have hexit : ∀ f j, (restWaitLoop getLoadBalancers id f j).exit = none := by
      intro f
      induction f with
      | zero => intro j; rfl
      | succ f ihf =>
        intro j
        rw [restWaitLoop]
        split <;> rfl
    cases h : restWaitLoop getLoadBalancers id fuel k with
    | mk e r t =>
      have := hexit fuel k
      rw [h] at this
      simp at this
      simp [pendingRounds, h, this]
  | succ n ih =>
    intro fuel k hfuel hpend
    obtain ⟨f, rfl⟩ : ∃ f, fuel = f + 1 := ⟨fuel - 1, by omega⟩
    have h0 := hpend 0 (by omega)
    rw [Nat.add_zero] at h0
    obtain ⟨e, he⟩ := Option.isSome_iff_exists.mp h0
    have hrec := ih f (k + 1) (by omega)
      (fun i hi => by
        have := hpend (i + 1) (by omega)
        rwa [Nat.add_assoc, Nat.add_comm 1 i])
    have e1 : f + 1 - (n + 1) = f - n := by omega
    have e2 : k + (n + 1) = k + 1 + n := by omega
    rw [e1, e2]
    conv_lhs => rw [restWaitLoop]
    simp only [he]
    rw [hrec]
    simp [pendingRounds]

/-! ## The readiness predicate of the virtual-IP wait -/

/-- C13 (as stated, refuted): an appliance whose first subnet has no address
and whose second subnet has one has an attached address, yet the predicate
counts none, and a wait that always gets this answer uses all 60 polls and
ends not ready. -/
theorem vip_ready_counts_first_subnet_counterexample :
    attachedIpCount sampleSecondSubnetOnly = 1 ∧
    vipIpCount sampleSecondSubnetOnly = 0 ∧
    (vipWaitLoop (fun _ => .ok sampleSecondSubnetOnly) 7 60 0).ready = false ∧
    (vipWaitLoop (fun _ => .ok sampleSecondSubnetOnly) 7 60 0).trace.countP Step.isVipRead
      = 60 := by
  refine ⟨by rfl, by rfl, by rfl, by rfl⟩

/-- C13 (amended): for every answer of the directory, the loop treats it as
pending (sleeps 10 seconds and polls again) exactly when the appliance has no
subnet or its first subnet has no address, and as ready (leaves the loop
with the flag set) exactly when its first subnet has at least one address;
so ready implies that an address is attached, and no attached address implies
pending. -/
theorem vip_ready_iff_first_subnet (obj : Network_Application_Delivery_Controller)
    (getObject : Nat → Except String Network_Application_Delivery_Controller) (id : Int)
    (fuel k : Nat) (hobj : getObject k = .ok obj) :
    (vipIpCount obj = 0 ↔
      obj.Subnets = [] ∨ ∃ first rest, obj.Subnets = first :: rest ∧ first.IpAddresses = []) ∧
    (0 < vipIpCount obj ↔
      ∃ first rest ip ips, obj.Subnets = first :: rest ∧ first.IpAddresses = ip :: ips) ∧
    (vipIpCount obj = 0 →
      vipWaitLoop getObject id (fuel + 1) k =
        ⟨(vipWaitLoop getObject id fuel (k + 1)).exit,
          (vipWaitLoop getObject id fuel (k + 1)).ready,
          .GetObject id VIP_MASK :: .Sleep 10 :: (vipWaitLoop getObject id fuel (k + 1)).trace⟩) ∧
    (0 < vipIpCount obj →
      vipWaitLoop getObject id (fuel + 1) k = ⟨none, true, [.GetObject id VIP_MASK]⟩) ∧
    (0 < vipIpCount obj → 1 ≤ attachedIpCount obj) ∧
    (attachedIpCount obj = 0 → vipIpCount obj = 0) := by
  have hle : vipIpCount obj ≤ attachedIpCount obj := by
    unfold vipIpCount attachedIpCount
    cases obj.Subnets with
    | nil => simp
    | cons first rest => simp
  refine ⟨?_, ?_, ?_, ?_, ?_, ?_⟩
  · unfold vipIpCount
    cases obj.Subnets with
    | nil => simp
    | cons first rest => simp
  · unfold vipIpCount
    cases obj.Subnets with
    | nil => simp
    | cons first rest =>
      cases h : first.IpAddresses with
      | nil => simp [h]
      | cons ip ips => simp [h]
  · intro h0
    rw [vipWaitLoop]
    simp [hobj, h0]
  · intro hpos
    rw [vipWaitLoop]
    simp [hobj, hpos]
  · intro hpos; omega
  · intro h0; omega

theorem vip_ready_iff_first_subnet_witness :
    vipWaitLoop (fun _ => .ok sampleOneAddress) 7 (59 + 1) 0
      = ⟨none, true, [.GetObject 7 VIP_MASK]⟩ :=
  (vip_ready_iff_first_subnet sampleOneAddress (fun _ => .ok sampleOneAddress) 7 59 0
    rfl).2.2.2.1 (by decide)

/-! ## Update: routing of the pairing change -/

/-- C17: `resourceSoftLayerLbVpxUpdate` does nothing and returns nil when
`ha_secondary` has not changed; when it changed and has at least one property
it runs `nitroConfigureHA` with the configured `primary_id` as primary and
the resource's own id as secondary; when it changed to empty it runs
`nitroDeleteHA` with the old `primary_id` as primary and the own id as
secondary; and on either route a `primary_id` or id that is not an integer
gives an error without any lookup or remote call. -/
theorem update_routing (env : Env) (sess : Directory) (d : ResourceData) :
    (d.haSecondaryHasChange = false →
      resourceSoftLayerLbVpxUpdate env sess d = ⟨.ok (), none, []⟩) ∧
    (d.haSecondaryHasChange = true → (Atoi d.haSecondaryCount).1 > 0 →
      ∀ primaryId secondaryId, Atoi d.haSecondaryPrimaryId = (primaryId, none) →
        Atoi d.Id = (secondaryId, none) →
        (resourceSoftLayerLbVpxUpdate env sess d).ha
          = some (nitroConfigureHA env sess primaryId secondaryId) ∧
        (resourceSoftLayerLbVpxUpdate env sess d).trace
          = (nitroConfigureHA env sess primaryId secondaryId).trace) ∧
    (d.haSecondaryHasChange = true → ¬ (Atoi d.haSecondaryCount).1 > 0 →
      ∀ primaryId secondaryId, Atoi d.haSecondaryPrimaryIdOld = (primaryId, none) →
        Atoi d.Id = (secondaryId, none) →
        (resourceSoftLayerLbVpxUpdate env sess d).ha
          = some (nitroDeleteHA env sess primaryId secondaryId) ∧
        (resourceSoftLayerLbVpxUpdate env sess d).trace
          = (nitroDeleteHA env sess primaryId secondaryId).trace) ∧
    (d.haSecondaryHasChange = true → (Atoi d.haSecondaryCount).1 > 0 →
      ((Atoi d.haSecondaryPrimaryId).2 ≠ none ∨ (Atoi d.Id).2 ≠ none) →
      (resourceSoftLayerLbVpxUpdate env sess d).err.isError = true ∧
      (resourceSoftLayerLbVpxUpdate env sess d).ha = none ∧
      (resourceSoftLayerLbVpxUpdate env sess d).trace = []) ∧
    (d.haSecondaryHasChange = true → ¬ (Atoi d.haSecondaryCount).1 > 0 →
      ((Atoi d.haSecondaryPrimaryIdOld).2 ≠ none ∨ (Atoi d.Id).2 ≠ none) →
      (resourceSoftLayerLbVpxUpdate env sess d).err.isError = true ∧
      (resourceSoftLayerLbVpxUpdate env sess d).ha = none ∧
      (resourceSoftLayerLbVpxUpdate env sess d).trace = []) := by
  refine ⟨?_, ?_, ?_, ?_, ?_⟩
  · intro h
    simp [resourceSoftLayerLbVpxUpdate, h]
  · intro hc hn primaryId secondaryId hp hs
    simp only [resourceSoftLayerLbVpxUpdate, hc, hn, hp, hs, if_true]
    cases (nitroConfigureHA env sess primaryId secondaryId).err <;> simp
  · intro hc hn primaryId secondaryId hp hs
    simp only [resourceSoftLayerLbVpxUpdate, hc, hn, hp, hs, if_true, if_false]
    cases (nitroDeleteHA env sess primaryId secondaryId).err <;> simp
  · intro hc hn hbad
    simp only [resourceSoftLayerLbVpxUpdate, hc, hn, if_true]
    rcases hp : Atoi d.haSecondaryPrimaryId with ⟨p, _ | e⟩
    · rcases hs : Atoi d.Id with ⟨s, _ | e⟩
      · simp [hp, hs] at hbad
      · simp [Outcome.isError]
    · simp [Outcome.isError]
  · intro hc hn hbad
    simp only [resourceSoftLayerLbVpxUpdate, hc, hn, if_true, if_false]
    rcases hp : Atoi d.haSecondaryPrimaryIdOld with ⟨p, _ | e⟩
    · rcases hs : Atoi d.Id with ⟨s, _ | e⟩
      · simp [hp, hs] at hbad
      · simp [Outcome.isError]
    · simp [Outcome.isError]

theorem update_routing_witness :
    (resourceSoftLayerLbVpxUpdate allOk sampleDirectory samplePairing).ha
      = some (nitroConfigureHA allOk sampleDirectory 1 2) ∧
    (resourceSoftLayerLbVpxUpdate allOk sampleDirectory sampleUnpairing).ha
      = some (nitroDeleteHA allOk sampleDirectory 1 2) ∧
    (resourceSoftLayerLbVpxUpdate allOk sampleDirectory sampleBadPairing).trace = [] :=
  ⟨((update_routing allOk sampleDirectory samplePairing).2.1 rfl (by decide) 1 2
      (by rfl) (by rfl)).1,
    ((update_routing allOk sampleDirectory sampleUnpairing).2.2.1 rfl (by decide) 1 2
      (by rfl) (by rfl)).1,
    ((update_routing allOk sampleDirectory sampleBadPairing).2.2.2.1 rfl (by decide)
      (Or.inl (by decide))).2.2⟩

theorem sample_createOrderAndBind (v r : Nat) :
    ∃ steps, createOrderAndBind sampleOrder (sampleBackend v r) = (.ok ("7", 7), steps) :=
  ⟨_, by rfl⟩

/-! ## Create: the shape of every run -/

theorem vipWaitLoop_trace_kinds
    (getObject : Nat → Except String Network_Application_Delivery_Controller) (id : Int)
    (fuel : Nat) : ∀ k, ∀ s ∈ (vipWaitLoop getObject id fuel k).trace,
      s = .GetObject id VIP_MASK ∨ s = .Sleep 10 := by
  induction fuel with
  | zero => intro k s hs; simp [vipWaitLoop] at hs
  | succ fuel ih =>
    intro k s hs
    rw [vipWaitLoop] at hs
    split at hs
    · simp at hs; exact Or.inl hs
    · split at hs
      · simp at hs; exact Or.inl hs
      · simp only [List.mem_cons] at hs
        rcases hs with h | h | h
        · exact Or.inl h
        · exact Or.inr h
        · exact ih _ s h

theorem restWaitLoop_trace_kinds (getLoadBalancers : Nat → Option String) (id : Int)
    (fuel : Nat) : ∀ k, ∀ s ∈ (restWaitLoop getLoadBalancers id fuel k).trace,
      s = .GetLoadBalancers id ∨ s = .Sleep 10 := by
  induction fuel with
  | zero => intro k s hs; simp [restWaitLoop] at hs
  | succ fuel ih =>
    intro k s hs
    rw [restWaitLoop] at hs
    split at hs
    · simp at hs; exact Or.inl hs
    · simp only [List.mem_cons] at hs
      rcases hs with h | h | h
      · exact Or.inl h
      · exact Or.inr h
      · exact ih _ s h

/-- What a successful `createOrderAndBind` went through: the order was
placed, the order-binding wait returned an appliance with an id, and the id
string parses to `id`; its steps are the order and the binding queries. -/
theorem createOrderAndBind_ok (d : OrderData) (b : Backend) (dId : String) (id : Int)
    (steps : List Step) (h : createOrderAndBind d b = (.ok (dId, id), steps)) :
    ∃ opts receipt orderId vpx vpxId,
      orderOptions d b = .ok opts ∧ b.PlaceOrder opts = .ok receipt ∧
      receipt.OrderId = some orderId ∧
      (findVPXByOrderId b.GetApplicationDeliveryControllers b.waitBudget orderId).result
        = .ok vpx ∧
      vpx.Id = some vpxId ∧ dId = toString vpxId ∧ Atoi dId = (id, none) ∧
      steps = .PlaceOrder opts ::
        List.replicate
          (findVPXByOrderId b.GetApplicationDeliveryControllers b.waitBudget orderId).queries
          (.GetApplicationDeliveryControllers orderId) := by
  unfold createOrderAndBind at h
  cases hopts : orderOptions d b with
  | panic r => simp [hopts] at h
  | error e => simp [hopts] at h
  | ok opts =>
    cases hplace : b.PlaceOrder opts with
    | error e => simp [hopts, hplace] at h
    | ok receipt =>
      cases horder : receipt.OrderId with
      | none => simp [hopts, hplace, horder] at h
      | some orderId =>
        cases hfind : (findVPXByOrderId b.GetApplicationDeliveryControllers b.waitBudget
            orderId).result with
        | panic r => simp [hopts, hplace, horder, hfind] at h
        | error e => simp [hopts, hplace, horder, hfind] at h
        | ok vpx =>
          cases hvid : vpx.Id with
          | none => simp [hopts, hplace, horder, hfind, hvid] at h
          | some vpxId =>
            rcases hatoi : Atoi (toString vpxId) with ⟨i, _ | e⟩
            · simp only [hopts, hplace, horder, hfind, hvid, hatoi, Prod.mk.injEq,
                Outcome.ok.injEq] at h
              obtain ⟨⟨h1, h2⟩, h3⟩ := h
              subst h1 h2 h3
              exact ⟨opts, receipt, orderId, vpx, vpxId, rfl, hplace, horder, hfind, hvid,
                rfl, hatoi, rfl⟩
            · simp [hopts, hplace, horder, hfind, hvid, hatoi] at h

/-- The steps of `createOrderAndBind` are the order and the binding queries
only. -/
theorem createOrderAndBind_steps (d : OrderData) (b : Backend) :
    ∀ s ∈ (createOrderAndBind d b).2,
      (∃ opts, s = .PlaceOrder opts) ∨
        (∃ orderId, s = .GetApplicationDeliveryControllers orderId) := by
  intro s hs
  have hcons : ∀ opts orderId n, s ∈ Step.PlaceOrder opts ::
      List.replicate n (Step.GetApplicationDeliveryControllers orderId) →
      (∃ opts, s = .PlaceOrder opts) ∨
        (∃ orderId, s = .GetApplicationDeliveryControllers orderId) := by
    intro opts orderId n h
    rcases List.mem_cons.mp h with h | h
    · exact Or.inl ⟨_, h⟩
    · exact Or.inr ⟨_, (List.mem_replicate.mp h).2⟩
  unfold createOrderAndBind at hs
  cases hopts : orderOptions d b with
  | panic r => simp [hopts] at hs
  | error e => simp [hopts] at hs
  | ok opts =>
    cases hplace : b.PlaceOrder opts with
    | error e =>
      simp only [hopts, hplace, List.mem_singleton] at hs
      exact Or.inl ⟨_, hs⟩
    | ok receipt =>
      cases horder : receipt.OrderId with
      | none =>
        simp only [hopts, hplace, horder, List.mem_singleton] at hs
        exact Or.inl ⟨_, hs⟩
      | some orderId =>
        cases hfind : (findVPXByOrderId b.GetApplicationDeliveryControllers b.waitBudget
            orderId).result with
        | panic r =>
          simp only [hopts, hplace, horder, hfind] at hs
          exact hcons _ _ _ hs
        | error e =>
          simp only [hopts, hplace, horder, hfind] at hs
          exact hcons _ _ _ hs
        | ok vpx =>
          cases hvid : vpx.Id with
          | none =>
            simp only [hopts, hplace, horder, hfind, hvid] at hs
            exact hcons _ _ _ hs
          | some vpxId =>
            rcases hatoi : Atoi (toString vpxId) with ⟨i, _ | e⟩
            · simp only [hopts, hplace, horder, hfind, hvid, hatoi] at hs
              exact hcons _ _ _ hs
            · simp only [hopts, hplace, horder, hfind, hvid, hatoi] at hs
              exact hcons _ _ _ hs

theorem read_trace (dId : String) (id : Int) (b : Backend) (h : Atoi dId = (id, none)) :
    (resourceSoftLayerLbVpxRead dId b).2 = [.GetObject id READ_MASK] := by
  unfold resourceSoftLayerLbVpxRead
  rw [h]
  cases hg : b.GetObject id <;> simp [hg]

theorem create_not_bound (d : OrderData) (b : Backend)
    (h : ∀ dId id, (createOrderAndBind d b).1 ≠ .ok (dId, id)) :
    (resourceSoftLayerLbVpxCreate d b).trace = (createOrderAndBind d b).2 ∧
    (resourceSoftLayerLbVpxCreate d b).err.isOk = false := by
  unfold resourceSoftLayerLbVpxCreate
  rcases hc : createOrderAndBind d b with ⟨r, steps⟩
  cases r with
  | panic r => exact ⟨rfl, rfl⟩
  | error e => exact ⟨rfl, rfl⟩
  | ok v =>
    obtain ⟨dId, id⟩ := v
    exact absurd (by rw [hc]) (h dId id)

theorem create_vip_fatal (d : OrderData) (b : Backend) (dId : String) (id : Int)
    (steps : List Step) (hpre : createOrderAndBind d b = (.ok (dId, id), steps))
    (e : String) (hexit : (vipWait b id).exit = some e) :
    resourceSoftLayerLbVpxCreate d b = ⟨.error e, steps ++ (vipWait b id).trace⟩ := by
  simp only [resourceSoftLayerLbVpxCreate, hpre, hexit]

theorem create_vip_timeout (d : OrderData) (b : Backend) (dId : String) (id : Int)
    (steps : List Step) (hpre : createOrderAndBind d b = (.ok (dId, id), steps))
    (hexit : (vipWait b id).exit = none) (hready : (vipWait b id).ready = false) :
    resourceSoftLayerLbVpxCreate d b =
      ⟨.error ("Failed to create VIPs for Netscaler VPX ID: " ++ toString id),
        steps ++ (vipWait b id).trace⟩ := by
  simp [resourceSoftLayerLbVpxCreate, hpre, hexit, hready]

theorem create_rest_timeout (d : OrderData) (b : Backend) (dId : String) (id : Int)
    (steps : List Step) (hpre : createOrderAndBind d b = (.ok (dId, id), steps))
    (hexit : (vipWait b id).exit = none) (hready : (vipWait b id).ready = true)
    (hrest : (restWait b id).ready = false) :
    resourceSoftLayerLbVpxCreate d b =
      ⟨.error ("Failed to intialize VPX REST Service for Netscaler VPX ID: " ++ toString id),
        steps ++ (vipWait b id).trace ++ (restWait b id).trace⟩ := by
  simp [resourceSoftLayerLbVpxCreate, hpre, hexit, hready, hrest]

theorem create_ready (d : OrderData) (b : Backend) (dId : String) (id : Int)
    (steps : List Step) (hpre : createOrderAndBind d b = (.ok (dId, id), steps))
    (hexit : (vipWait b id).exit = none) (hready : (vipWait b id).ready = true)
    (hrest : (restWait b id).ready = true) :
    resourceSoftLayerLbVpxCreate d b =
      ⟨(resourceSoftLayerLbVpxRead dId b).1,
        steps ++ (vipWait b id).trace ++ (restWait b id).trace ++ [.Sleep 60]
          ++ [.GetObject id READ_MASK]⟩ := by
  obtain ⟨_, _, _, _, _, _, _, _, _, _, _, hatoi, _⟩ :=
    createOrderAndBind_ok d b dId id steps hpre
  simp [resourceSoftLayerLbVpxCreate, hpre, hexit, hready, hrest, read_trace dId id b hatoi]

/-- Counting the steps of one kind in the three parts of a run before the
settle delay. -/
theorem countP_steps (d : OrderData) (b : Backend) (q : Step → Bool)
    (hq1 : ∀ opts, q (.PlaceOrder opts) = false)
    (hq2 : ∀ orderId, q (.GetApplicationDeliveryControllers orderId) = false) :
    (createOrderAndBind d b).2.countP q = 0 := by
  rw [List.countP_eq_zero]
  intro s hs
  rcases createOrderAndBind_steps d b s hs with ⟨o, rfl⟩ | ⟨o, rfl⟩
  · simp [hq1]
  · simp [hq2]

theorem countP_vipWait (b : Backend) (id : Int) (q : Step → Bool)
    (hq1 : q (.GetObject id VIP_MASK) = false) (hq2 : q (.Sleep 10) = false) :
    (vipWait b id).trace.countP q = 0 := by
  rw [List.countP_eq_zero]
  intro s hs
  rcases vipWaitLoop_trace_kinds _ id 60 0 s hs with rfl | rfl
  · simp [hq1]
  · simp [hq2]

theorem countP_restWait (b : Backend) (id : Int) (q : Step → Bool)
    (hq1 : q (.GetLoadBalancers id) = false) (hq2 : q (.Sleep 10) = false) :
    (restWait b id).trace.countP q = 0 := by
  rw [List.countP_eq_zero]
  intro s hs
  rcases restWaitLoop_trace_kinds _ id 60 0 s hs with rfl | rfl
  · simp [hq1]
  · simp [hq2]

theorem restWaitLoop_exit (getLoadBalancers : Nat → Option String) (id : Int) (fuel : Nat) :
    ∀ k, (restWaitLoop getLoadBalancers id fuel k).exit = none := by
  induction fuel with
  | zero => intro k; rfl
  | succ fuel ih =>
    intro k
    rw [restWaitLoop]
    split <;> rfl

/-- A management-API loop that ends ready ends with the probe that
succeeded. -/
theorem restWaitLoop_ready_last (getLoadBalancers : Nat → Option String) (id : Int)
    (fuel : Nat) : ∀ k, (restWaitLoop getLoadBalancers id fuel k).ready = true →
      (restWaitLoop getLoadBalancers id fuel k).trace.getLast? = some (.GetLoadBalancers id) := by
  induction fuel with
  | zero => intro k h; simp [restWaitLoop] at h
  | succ fuel ih =>
    intro k h
    rw [restWaitLoop] at h ⊢
    split
    · rfl
    · next e he =>
      simp only [he] at h
      have hl := ih (k + 1) h
      cases ht : (restWaitLoop getLoadBalancers id fuel (k + 1)).trace with
      | nil => rw [ht] at hl; simp at hl
      | cons a l =>
        rw [ht] at hl
        simp only [List.getLast?_cons_cons]
        exact hl

/-- The management-API loop always makes its first probe. -/
theorem restWait_first_probe (b : Backend) (id : Int) :
    Step.GetLoadBalancers id ∈ (restWait b id).trace := by
  unfold restWait
  rw [restWaitLoop]
  split <;> simp

/-- The virtual-IP reads of a run of Create are those of its virtual-IP
wait. -/
theorem create_vipRead_count (d : OrderData) (b : Backend) (dId : String) (id : Int)
    (steps : List Step) (hpre : createOrderAndBind d b = (.ok (dId, id), steps)) :
    (resourceSoftLayerLbVpxCreate d b).trace.countP Step.isVipRead
      = (vipWait b id).trace.countP Step.isVipRead := by
  have hs : steps.countP Step.isVipRead = 0 := by
    have := countP_steps d b Step.isVipRead (fun _ => rfl) (fun _ => rfl)
    rwa [hpre] at this
  have hr := countP_restWait b id Step.isVipRead rfl rfl
  cases hexit : (vipWait b id).exit with
  | some e => rw [create_vip_fatal d b dId id steps hpre e hexit]; simp [hs]
  | none =>
    cases hready : (vipWait b id).ready with
    | false => rw [create_vip_timeout d b dId id steps hpre hexit hready]; simp [hs]
    | true =>
      cases hrest : (restWait b id).ready with
      | false =>
        rw [create_rest_timeout d b dId id steps hpre hexit hready hrest]
        simp [hs, hr]
      | true =>
        rw [create_ready d b dId id steps hpre hexit hready hrest]
        simp [hs, hr, Step.isVipRead, READ_MASK, VIP_MASK]

/-- The probes of a run of Create whose virtual-IP wait ended ready are those
of its management-API wait. -/
theorem create_probe_count (d : OrderData) (b : Backend) (dId : String) (id : Int)
    (steps : List Step) (hpre : createOrderAndBind d b = (.ok (dId, id), steps))
    (hexit : (vipWait b id).exit = none) (hready : (vipWait b id).ready = true) :
    (resourceSoftLayerLbVpxCreate d b).trace.countP Step.isProbe
      = (restWait b id).trace.countP Step.isProbe := by
  have hs : steps.countP Step.isProbe = 0 := by
    have := countP_steps d b Step.isProbe (fun _ => rfl) (fun _ => rfl)
    rwa [hpre] at this
  have hv := countP_vipWait b id Step.isProbe rfl rfl
  cases hrest : (restWait b id).ready with
  | false =>
    rw [create_rest_timeout d b dId id steps hpre hexit hready hrest]
    simp [hs, hv]
  | true =>
    rw [create_ready d b dId id steps hpre hexit hready hrest]
    simp [hs, hv, Step.isProbe]

/-! ## Create: the outcomes of the two waits -/

theorem vipWait_ready_after (b : Backend) (id : Int) (n : Nat) (hn : n ≤ 59)
    (hpend : ∀ i, i < n → ∃ obj, b.GetObjectSubnets id i = .ok obj ∧ vipIpCount obj = 0)
    (hready : ∃ obj, b.GetObjectSubnets id n = .ok obj ∧ 0 < vipIpCount obj) :
    vipWait b id = ⟨none, true,
      pendingRounds (.GetObject id VIP_MASK) n ++ [.GetObject id VIP_MASK]⟩ := by
  unfold vipWait
  rw [vipWaitLoop_pending (b.GetObjectSubnets id) id n 60 0 (by omega)
    (fun i hi => by rw [Nat.zero_add]; exact hpend i hi)]
  obtain ⟨f, hf⟩ : ∃ f, 60 - n = f + 1 := ⟨59 - n, by omega⟩
  obtain ⟨obj, hobj, hpos⟩ := hready
  rw [hf, Nat.zero_add, vipWaitLoop]
  simp [hobj, hpos]

theorem vipWait_error_after (b : Backend) (id : Int) (n : Nat) (hn : n ≤ 59)
    (hpend : ∀ i, i < n → ∃ obj, b.GetObjectSubnets id i = .ok obj ∧ vipIpCount obj = 0)
    (err : String) (herr : b.GetObjectSubnets id n = .error err) :
    vipWait b id =
      ⟨some ("Error retrieving network application delivery controller: " ++ err), false,
        pendingRounds (.GetObject id VIP_MASK) n ++ [.GetObject id VIP_MASK]⟩ := by
  unfold vipWait
  rw [vipWaitLoop_pending (b.GetObjectSubnets id) id n 60 0 (by omega)
    (fun i hi => by rw [Nat.zero_add]; exact hpend i hi)]
  obtain ⟨f, hf⟩ : ∃ f, 60 - n = f + 1 := ⟨59 - n, by omega⟩
  rw [hf, Nat.zero_add, vipWaitLoop]
  simp [herr]

theorem vipWait_timeout (b : Backend) (id : Int)
    (hpend : ∀ i, i < 60 → ∃ obj, b.GetObjectSubnets id i = .ok obj ∧ vipIpCount obj = 0) :
    vipWait b id = ⟨none, false, pendingRounds (.GetObject id VIP_MASK) 60⟩ := by
  unfold vipWait
  rw [vipWaitLoop_pending (b.GetObjectSubnets id) id 60 60 0 (by omega)
    (fun i hi => by rw [Nat.zero_add]; exact hpend i hi)]
  simp [vipWaitLoop]

theorem restWait_ready_after (b : Backend) (id : Int) (n : Nat) (hn : n ≤ 59)
    (hfail : ∀ i, i < n → (b.GetLoadBalancers id i).isSome = true)
    (hok : b.GetLoadBalancers id n = none) :
    restWait b id = ⟨none, true,
      pendingRounds (.GetLoadBalancers id) n ++ [.GetLoadBalancers id]⟩ := by
  unfold restWait
  rw [restWaitLoop_pending (b.GetLoadBalancers id) id n 60 0 (by omega)
    (fun i hi => by rw [Nat.zero_add]; exact hfail i hi)]
  obtain ⟨f, hf⟩ : ∃ f, 60 - n = f + 1 := ⟨59 - n, by omega⟩
  rw [hf, Nat.zero_add, restWaitLoop]
  simp [hok]

theorem restWait_timeout (b : Backend) (id : Int)
    (hfail : ∀ i, i < 60 → (b.GetLoadBalancers id i).isSome = true) :
    restWait b id = ⟨none, false, pendingRounds (.GetLoadBalancers id) 60⟩ := by
  unfold restWait
  rw [restWaitLoop_pending (b.GetLoadBalancers id) id 60 60 0 (by omega)
    (fun i hi => by rw [Nat.zero_add]; exact hfail i hi)]
  simp [restWaitLoop]

/-- Two texts that start with different characters are different. -/
theorem append_ne_of_head (a b x y : String) (h : a.data.head? ≠ b.data.head?)
    (ha : a.data ≠ []) (hb : b.data ≠ []) : a ++ x ≠ b ++ y := by
  intro heq
  have hd := congrArg String.data heq
  rw [String.data_append, String.data_append] at hd
  cases hal : a.data with
  | nil => exact ha hal
  | cons c cs =>
    cases hbl : b.data with
    | nil => exact hb hbl
    | cons e es =>
      rw [hal, hbl] at hd h
      simp at hd h
      exact h hd.1

/-! ## Create: the virtual-IP wait -/

/-- C11: after a successful order binding, with an error-free directory: if
the first N reads (N ≤ 59) show no address and read N+1 shows one, the
virtual-IP wait reads the directory N+1 times, sleeps 10 seconds N times
(N x 10 seconds in all), ends ready, and Create goes on to probe the
management API; if all 60 reads show no address, the directory is read 60
times and Create returns "Failed to create VIPs for Netscaler VPX ID: id",
which differs from every remote-error failure of this wait. -/
theorem vip_wait_polls (d : OrderData) (b : Backend) (dId : String) (id : Int)
    (steps : List Step) (hpre : createOrderAndBind d b = (.ok (dId, id), steps)) :
    (∀ n, n ≤ 59 →
      (∀ i, i < n → ∃ obj, b.GetObjectSubnets id i = .ok obj ∧ vipIpCount obj = 0) →
      (∃ obj, b.GetObjectSubnets id n = .ok obj ∧ 0 < vipIpCount obj) →
      vipWait b id = ⟨none, true,
        pendingRounds (.GetObject id VIP_MASK) n ++ [.GetObject id VIP_MASK]⟩ ∧
      (vipWait b id).trace.countP Step.isVipRead = n + 1 ∧
      (vipWait b id).trace.countP Step.isPollSleep = n ∧
      elapsed (vipWait b id).trace = n * 10 ∧
      (resourceSoftLayerLbVpxCreate d b).trace.countP Step.isVipRead = n + 1 ∧
      Step.GetLoadBalancers id ∈ (resourceSoftLayerLbVpxCreate d b).trace) ∧
    ((∀ i, i < 60 → ∃ obj, b.GetObjectSubnets id i = .ok obj ∧ vipIpCount obj = 0) →
      (vipWait b id).trace.countP Step.isVipRead = 60 ∧
      resourceSoftLayerLbVpxCreate d b =
        ⟨.error ("Failed to create VIPs for Netscaler VPX ID: " ++ toString id),
          steps ++ pendingRounds (.GetObject id VIP_MASK) 60⟩ ∧
      (resourceSoftLayerLbVpxCreate d b).trace.countP Step.isVipRead = 60 ∧
      ∀ err, "Failed to create VIPs for Netscaler VPX ID: " ++ toString id
        ≠ "Error retrieving network application delivery controller: " ++ err) := by
  constructor
  · intro n hn hpend hready
    have hv := vipWait_ready_after b id n hn hpend hready
    have hcount : (vipWait b id).trace.countP Step.isVipRead = n + 1 := by
      rw [hv]
      simp [countP_pendingRounds, Step.isVipRead]
    refine ⟨hv, hcount, ?_, ?_, ?_, ?_⟩
    · rw [hv]
      simp [countP_pendingRounds, Step.isVipRead, Step.isPollSleep]
    · rw [hv]
      simp [elapsed_append, elapsed_pendingRounds_getObject, elapsed]
    · rw [create_vipRead_count d b dId id steps hpre, hcount]
    · have hexit : (vipWait b id).exit = none := by rw [hv]
      have hr : (vipWait b id).ready = true := by rw [hv]
      have hp := restWait_first_probe b id
      cases hrest : (restWait b id).ready with
      | false =>
        rw [create_rest_timeout d b dId id steps hpre hexit hr hrest]
        simp [hp]
      | true =>
        rw [create_ready d b dId id steps hpre hexit hr hrest]
        simp [hp]
  · intro hpend
    have hv := vipWait_timeout b id hpend
    have hcount : (vipWait b id).trace.countP Step.isVipRead = 60 := by
      rw [hv]
      simp [countP_pendingRounds, Step.isVipRead]
    refine ⟨hcount, ?_, ?_, ?_⟩
    · rw [create_vip_timeout d b dId id steps hpre (by rw [hv]) (by rw [hv]), hv]
    · rw [create_vipRead_count d b dId id steps hpre, hcount]
    · intro err
      exact append_ne_of_head _ _ _ _ (by decide) (by decide) (by decide)

theorem vip_wait_polls_witness :
    (vipWait (sampleBackend 2 0) 7).trace.countP Step.isVipRead = 2 + 1 ∧
    elapsed (vipWait (sampleBackend 2 0) 7).trace = 2 * 10 ∧
    (resourceSoftLayerLbVpxCreate sampleOrder (sampleBackend 60 0)).err
      = .error ("Failed to create VIPs for Netscaler VPX ID: " ++ toString (7 : Int)) :=
  ⟨((vip_wait_polls sampleOrder (sampleBackend 2 0) "7" 7 _ (by rfl)).1 2 (by decide)
      (fun i hi => ⟨sampleNoAddress, by simp [sampleBackend, hi], by rfl⟩)
      ⟨sampleOneAddress, by rfl, by decide⟩).2.1,
    ((vip_wait_polls sampleOrder (sampleBackend 2 0) "7" 7 _ (by rfl)).1 2 (by decide)
      (fun i hi => ⟨sampleNoAddress, by simp [sampleBackend, hi], by rfl⟩)
      ⟨sampleOneAddress, by rfl, by decide⟩).2.2.2.1,
    by
      have h := ((vip_wait_polls sampleOrder (sampleBackend 60 0) "7" 7 _ (by rfl)).2
        (fun i hi => ⟨sampleNoAddress, by simp [sampleBackend, hi], by rfl⟩)).2.1
      rw [h]⟩

/-- C12: after a successful order binding, if the reads before poll j
(1 ≤ j ≤ 60) show no address and the read of poll j returns a remote error,
Create returns "Error retrieving network application delivery controller: "
with that error at once: the directory was read exactly j times in this wait,
the failed read is the last step of the run (no further sleep or poll), and
the management API is never probed. -/
theorem vip_wait_remote_error (d : OrderData) (b : Backend) (dId : String) (id : Int)
    (steps : List Step) (hpre : createOrderAndBind d b = (.ok (dId, id), steps))
    (j : Nat) (hj1 : 1 ≤ j) (hj60 : j ≤ 60)
    (hpend : ∀ i, i < j - 1 → ∃ obj, b.GetObjectSubnets id i = .ok obj ∧ vipIpCount obj = 0)
    (err : String) (herr : b.GetObjectSubnets id (j - 1) = .error err) :
    resourceSoftLayerLbVpxCreate d b =
      ⟨.error ("Error retrieving network application delivery controller: " ++ err),
        steps ++ (pendingRounds (.GetObject id VIP_MASK) (j - 1) ++ [.GetObject id VIP_MASK])⟩ ∧
    (resourceSoftLayerLbVpxCreate d b).trace.countP Step.isVipRead = j ∧
    (resourceSoftLayerLbVpxCreate d b).trace.countP Step.isPollSleep = j - 1 ∧
    (resourceSoftLayerLbVpxCreate d b).trace.getLast? = some (.GetObject id VIP_MASK) ∧
    (resourceSoftLayerLbVpxCreate d b).trace.countP Step.isProbe = 0 ∧
    (resourceSoftLayerLbVpxCreate d b).trace.countP Step.isSettle = 0 ∧
    (resourceSoftLayerLbVpxCreate d b).trace.countP Step.isFinalRead = 0 := by
  have hv := vipWait_error_after b id (j - 1) (by omega) hpend err herr
  have hc := create_vip_fatal d b dId id steps hpre _ (by rw [hv])
  rw [hv] at hc
  simp only at hc
  have hs : ∀ q : Step → Bool, (∀ opts, q (.PlaceOrder opts) = false) →
      (∀ o, q (.GetApplicationDeliveryControllers o) = false) → steps.countP q = 0 := by
    intro q h1 h2
    have := countP_steps d b q h1 h2
    rwa [hpre] at this
  refine ⟨hc, ?_, ?_, ?_, ?_, ?_, ?_⟩
  · rw [hc]
    simp [countP_pendingRounds, Step.isVipRead, hs Step.isVipRead (fun _ => rfl) (fun _ => rfl)]
    omega
  · rw [hc]
    simp [countP_pendingRounds, Step.isVipRead, Step.isPollSleep,
      hs Step.isPollSleep (fun _ => rfl) (fun _ => rfl)]
  · rw [hc]
    simp [← List.append_assoc]
  · rw [hc]
    simp [countP_pendingRounds, Step.isProbe, hs Step.isProbe (fun _ => rfl) (fun _ => rfl)]
  · rw [hc]
    simp [countP_pendingRounds, Step.isSettle, hs Step.isSettle (fun _ => rfl) (fun _ => rfl)]
  · rw [hc]
    simp [countP_pendingRounds, Step.isFinalRead, READ_MASK, VIP_MASK,
      hs Step.isFinalRead (fun _ => rfl) (fun _ => rfl)]

theorem vip_wait_remote_error_witness :
    (resourceSoftLayerLbVpxCreate sampleOrder sampleBackendVipError).trace.countP
      Step.isVipRead = 3 ∧
    (resourceSoftLayerLbVpxCreate sampleOrder sampleBackendVipError).trace.countP
      Step.isProbe = 0 :=
  ⟨(vip_wait_remote_error sampleOrder sampleBackendVipError "7" 7 _ (by rfl) 3 (by decide)
      (by decide)
      (fun i hi => ⟨sampleNoAddress,
        by simp [sampleBackendVipError, (by omega : i < 2)], by rfl⟩)
      "SoftLayer_Exception: timeout" (by rfl)).2.1,
    (vip_wait_remote_error sampleOrder sampleBackendVipError "7" 7 _ (by rfl) 3 (by decide)
      (by decide)
      (fun i hi => ⟨sampleNoAddress,
        by simp [sampleBackendVipError, (by omega : i < 2)], by rfl⟩)
      "SoftLayer_Exception: timeout" (by rfl)).2.2.2.2.1⟩

/-! ## Create: the management-API wait -/

/-- C14: the management-API wait never returns from inside the loop on a
probe error.  After a virtual-IP wait that ended ready: if the first N probes
(N ≤ 59) fail and probe N+1 succeeds, the probe is called N+1 times with N
sleeps of 10 seconds, the wait ends ready and Create goes on to the settle
delay and the final Read; if all 60 probes fail, the probe is called 60 times
and Create returns "Failed to intialize VPX REST Service for Netscaler VPX
ID: id", whatever the probe errors were. -/
theorem rest_wait_probes (d : OrderData) (b : Backend) (dId : String) (id : Int)
    (steps : List Step) (hpre : createOrderAndBind d b = (.ok (dId, id), steps))
    (hexit : (vipWait b id).exit = none) (hready : (vipWait b id).ready = true) :
    (restWait b id).exit = none ∧
    (∀ n, n ≤ 59 →
      (∀ i, i < n → (b.GetLoadBalancers id i).isSome = true) →
      b.GetLoadBalancers id n = none →
      restWait b id = ⟨none, true,
        pendingRounds (.GetLoadBalancers id) n ++ [.GetLoadBalancers id]⟩ ∧
      (restWait b id).trace.countP Step.isProbe = n + 1 ∧
      (restWait b id).trace.countP Step.isPollSleep = n ∧
      elapsed (restWait b id).trace = n * 10 ∧
      (resourceSoftLayerLbVpxCreate d b).trace.countP Step.isProbe = n + 1 ∧
      resourceSoftLayerLbVpxCreate d b =
        ⟨(resourceSoftLayerLbVpxRead dId b).1,
          steps ++ (vipWait b id).trace ++ (restWait b id).trace ++ [.Sleep 60]
            ++ [.GetObject id READ_MASK]⟩) ∧
    ((∀ i, i < 60 → (b.GetLoadBalancers id i).isSome = true) →
      (restWait b id).trace.countP Step.isProbe = 60 ∧
      (resourceSoftLayerLbVpxCreate d b).trace.countP Step.isProbe = 60 ∧
      resourceSoftLayerLbVpxCreate d b =
        ⟨.error ("Failed to intialize VPX REST Service for Netscaler VPX ID: " ++ toString id),
          steps ++ (vipWait b id).trace ++ pendingRounds (.GetLoadBalancers id) 60⟩) := by
  refine ⟨restWaitLoop_exit _ id 60 0, ?_, ?_⟩
  · intro n hn hfail hok
    have hr := restWait_ready_after b id n hn hfail hok
    have hcount : (restWait b id).trace.countP Step.isProbe = n + 1 := by
      rw [hr]
      simp [countP_pendingRounds, Step.isProbe]
    refine ⟨hr, hcount, ?_, ?_, ?_, ?_⟩
    · rw [hr]
      simp [countP_pendingRounds, Step.isProbe, Step.isPollSleep]
    · rw [hr]
      simp [elapsed_append, elapsed_pendingRounds_getLoadBalancers, elapsed]
    · rw [create_probe_count d b dId id steps hpre hexit hready, hcount]
    · exact create_ready d b dId id steps hpre hexit hready (by rw [hr])
  · intro hfail
    have hr := restWait_timeout b id hfail
    have hcount : (restWait b id).trace.countP Step.isProbe = 60 := by
      rw [hr]
      simp [countP_pendingRounds, Step.isProbe]
    refine ⟨hcount, ?_, ?_⟩
    · rw [create_probe_count d b dId id steps hpre hexit hready, hcount]
    · rw [create_rest_timeout d b dId id steps hpre hexit hready (by rw [hr]), hr]

theorem rest_wait_probes_witness :
    (restWait (sampleBackend 0 3) 7).trace.countP Step.isProbe = 3 + 1 ∧
    (resourceSoftLayerLbVpxCreate sampleOrder (sampleBackend 0 60)).trace.countP
      Step.isProbe = 60 :=
  ⟨(((rest_wait_probes sampleOrder (sampleBackend 0 3) "7" 7 _ (by rfl) (by rfl)
      (by rfl)).2.1) 3 (by decide) (fun i hi => by simp [sampleBackend, hi]) (by rfl)).2.1,
    (((rest_wait_probes sampleOrder (sampleBackend 0 60) "7" 7 _ (by rfl) (by rfl)
      (by rfl)).2.2) (fun i hi => by simp [sampleBackend, hi])).2.1⟩

/-! ## Create: the order of the three waits -/

/-- Every run of Create has one of five shapes: the order or its binding
failed; the virtual-IP wait failed on a remote error; it timed out; the
management-API wait timed out; or both waits ended ready and the settle
delay and the final Read follow. -/
theorem create_cases (d : OrderData) (b : Backend) :
    ((∀ dId id, (createOrderAndBind d b).1 ≠ .ok (dId, id)) ∧
      (resourceSoftLayerLbVpxCreate d b).trace = (createOrderAndBind d b).2) ∨
    ∃ dId id steps, createOrderAndBind d b = (.ok (dId, id), steps) ∧
      (((vipWait b id).exit ≠ none ∧
          (resourceSoftLayerLbVpxCreate d b).trace = steps ++ (vipWait b id).trace) ∨
        ((vipWait b id).exit = none ∧ (vipWait b id).ready = false ∧
          (resourceSoftLayerLbVpxCreate d b).trace = steps ++ (vipWait b id).trace) ∨
        ((vipWait b id).exit = none ∧ (vipWait b id).ready = true ∧
          (restWait b id).ready = false ∧
          (resourceSoftLayerLbVpxCreate d b).trace
            = steps ++ (vipWait b id).trace ++ (restWait b id).trace) ∨
        ((vipWait b id).exit = none ∧ (vipWait b id).ready = true ∧
          (restWait b id).ready = true ∧
          (resourceSoftLayerLbVpxCreate d b).trace
            = steps ++ (vipWait b id).trace ++ (restWait b id).trace ++ [.Sleep 60]
              ++ [.GetObject id READ_MASK])) := by
  rcases hc : createOrderAndBind d b with ⟨r, steps⟩
  cases r with
  | panic r =>
    left
    have hne : ∀ dId id, (createOrderAndBind d b).1 ≠ .ok (dId, id) := by
      intro dId id; rw [hc]; simp
    exact ⟨by intro dId id; simp, by rw [(create_not_bound d b hne).1, hc]⟩
  | error e =>
    left
    have hne : ∀ dId id, (createOrderAndBind d b).1 ≠ .ok (dId, id) := by
      intro dId id; rw [hc]; simp
    exact ⟨by intro dId id; simp, by rw [(create_not_bound d b hne).1, hc]⟩
  | ok v =>
    obtain ⟨dId, id⟩ := v
    right
    refine ⟨dId, id, steps, rfl, ?_⟩
    cases hexit : (vipWait b id).exit with
    | some e =>
      left
      exact ⟨by simp, by rw [create_vip_fatal d b dId id steps hc e hexit]⟩
    | none =>
      right
      cases hready : (vipWait b id).ready with
      | false =>
        left
        exact ⟨rfl, rfl, by rw [create_vip_timeout d b dId id steps hc hexit hready]⟩
      | true =>
        right
        cases hrest : (restWait b id).ready with
        | false =>
          left
          exact ⟨rfl, rfl, rfl,
            by rw [create_rest_timeout d b dId id steps hc hexit hready hrest]⟩
        | true =>
          right
          exact ⟨rfl, rfl, rfl, by rw [create_ready d b dId id steps hc hexit hready hrest]⟩

/-- C15: in every run of `resourceSoftLayerLbVpxCreate`, a virtual-IP read is
issued only if the order was placed and the order-binding wait returned an
appliance; the management API is probed only if the virtual-IP wait ended
ready; the 60-second settle delay occurs at most once, and it or the final
Read occurs only if the management-API wait ended ready, in which case the
run is the order, the two waits ending with the successful probe, then the
settle delay, then the read of the final Read; and whenever the
management-API wait ended ready the settle delay occurs exactly once. -/
theorem create_sequencing (d : OrderData) (b : Backend) :
    ((∃ s ∈ (resourceSoftLayerLbVpxCreate d b).trace, s.isVipRead = true) →
      ∃ opts receipt orderId vpx, b.PlaceOrder opts = .ok receipt ∧
        receipt.OrderId = some orderId ∧
        (findVPXByOrderId b.GetApplicationDeliveryControllers b.waitBudget orderId).result
          = .ok vpx) ∧
    ((∃ s ∈ (resourceSoftLayerLbVpxCreate d b).trace, s.isProbe = true) →
      ∃ dId id steps, createOrderAndBind d b = (.ok (dId, id), steps) ∧
        (vipWait b id).exit = none ∧ (vipWait b id).ready = true) ∧
    (resourceSoftLayerLbVpxCreate d b).trace.countP Step.isSettle ≤ 1 ∧
    ((∃ s ∈ (resourceSoftLayerLbVpxCreate d b).trace,
        s.isSettle = true ∨ s.isFinalRead = true) →
      ∃ dId id steps, createOrderAndBind d b = (.ok (dId, id), steps) ∧
        (vipWait b id).exit = none ∧ (vipWait b id).ready = true ∧
        (restWait b id).ready = true ∧
        (resourceSoftLayerLbVpxCreate d b).trace
          = (steps ++ (vipWait b id).trace ++ (restWait b id).trace)
            ++ [.Sleep 60, .GetObject id READ_MASK] ∧
        (steps ++ (vipWait b id).trace ++ (restWait b id).trace).getLast?
          = some (.GetLoadBalancers id) ∧
        (steps ++ (vipWait b id).trace ++ (restWait b id).trace).countP Step.isSettle = 0 ∧
        (steps ++ (vipWait b id).trace ++ (restWait b id).trace).countP Step.isFinalRead = 0) ∧
    (∀ dId id steps, createOrderAndBind d b = (.ok (dId, id), steps) →
      (vipWait b id).exit = none → (vipWait b id).ready = true →
      (restWait b id).ready = true →
      (resourceSoftLayerLbVpxCreate d b).trace.countP Step.isSettle = 1) := by
  have hsteps : ∀ q : Step → Bool, (∀ opts, q (.PlaceOrder opts) = false) →
      (∀ o, q (.GetApplicationDeliveryControllers o) = false) →
      (createOrderAndBind d b).2.countP q = 0 := countP_steps d b
  have hvipq : ∀ id, (vipWait b id).trace.countP Step.isProbe = 0 ∧
      (vipWait b id).trace.countP Step.isSettle = 0 ∧
      (vipWait b id).trace.countP Step.isFinalRead = 0 := fun id =>
    ⟨countP_vipWait b id _ rfl rfl, countP_vipWait b id _ rfl rfl,
      countP_vipWait b id _ (by simp [Step.isFinalRead, READ_MASK, VIP_MASK]) rfl⟩
  have hrestq : ∀ id, (restWait b id).trace.countP Step.isSettle = 0 ∧
      (restWait b id).trace.countP Step.isFinalRead = 0 := fun id =>
    ⟨countP_restWait b id _ rfl rfl, countP_restWait b id _ rfl rfl⟩
  have hex : ∀ (q : Step → Bool) (l : List Step), l.countP q = 0 →
      ¬ ∃ s ∈ l, q s = true := by
    intro q l h0 hs
    have := List.countP_pos_iff.mpr hs
    omega
  rcases create_cases d b with ⟨hno, ht⟩ | ⟨dId, id, steps, hpre, hcase⟩
  · -- the order or its binding failed
    have h0 : ∀ q : Step → Bool, (∀ opts, q (.PlaceOrder opts) = false) →
        (∀ o, q (.GetApplicationDeliveryControllers o) = false) →
        (resourceSoftLayerLbVpxCreate d b).trace.countP q = 0 := by
      intro q h1 h2
      rw [ht]
      exact hsteps q h1 h2
    refine ⟨?_, ?_, ?_, ?_, ?_⟩
    · intro h
      exact absurd h (hex _ _ (h0 _ (fun _ => rfl) (fun _ => rfl)))
    · intro h
      exact absurd h (hex _ _ (h0 _ (fun _ => rfl) (fun _ => rfl)))
    · rw [h0 _ (fun _ => rfl) (fun _ => rfl)]
      omega
    · rintro ⟨s, hs, h | h⟩
      · exact absurd ⟨s, hs, h⟩ (hex _ _ (h0 _ (fun _ => rfl) (fun _ => rfl)))
      · exact absurd ⟨s, hs, h⟩ (hex _ _ (h0 _ (fun _ => rfl) (fun _ => rfl)))
    · intro dId id steps hpre
      exact absurd (by rw [hpre]) (hno dId id)
  · have hs0 : ∀ q : Step → Bool, (∀ opts, q (.PlaceOrder opts) = false) →
        (∀ o, q (.GetApplicationDeliveryControllers o) = false) → steps.countP q = 0 := by
      intro q h1 h2
      have := hsteps q h1 h2
      rwa [hpre] at this
    have hbound : ∃ opts receipt orderId vpx, b.PlaceOrder opts = .ok receipt ∧
        receipt.OrderId = some orderId ∧
        (findVPXByOrderId b.GetApplicationDeliveryControllers b.waitBudget orderId).result
          = .ok vpx := by
      obtain ⟨opts, receipt, orderId, vpx, _, _, h1, h2, h3, _⟩ :=
        createOrderAndBind_ok d b dId id steps hpre
      exact ⟨opts, receipt, orderId, vpx, h1, h2, h3⟩
    have hinj : ∀ dId' id' steps', createOrderAndBind d b = (.ok (dId', id'), steps') →
        id' = id := by
      intro dId' id' steps' h
      rw [hpre] at h
      simp only [Prod.mk.injEq, Outcome.ok.injEq] at h
      exact h.1.2.symm
    obtain ⟨hvp, hvs, hvf⟩ := hvipq id
    obtain ⟨hrs, hrf⟩ := hrestq id
    have hsettle0 := hs0 Step.isSettle (fun _ => rfl) (fun _ => rfl)
    have hfinal0 := hs0 Step.isFinalRead (fun _ => rfl) (fun _ => rfl)
    have hprobe0 := hs0 Step.isProbe (fun _ => rfl) (fun _ => rfl)
    rcases hcase with ⟨hexit, ht⟩ | ⟨hexit, hready, ht⟩ | ⟨hexit, hready, hrest, ht⟩ |
      ⟨hexit, hready, hrest, ht⟩
    · -- the virtual-IP wait failed on a remote error
      have hp : (resourceSoftLayerLbVpxCreate d b).trace.countP Step.isProbe = 0 := by
        rw [ht]; simp [hprobe0, hvp]
      have hse : (resourceSoftLayerLbVpxCreate d b).trace.countP Step.isSettle = 0 := by
        rw [ht]; simp [hsettle0, hvs]
      have hf : (resourceSoftLayerLbVpxCreate d b).trace.countP Step.isFinalRead = 0 := by
        rw [ht]; simp [hfinal0, hvf]
      refine ⟨fun _ => hbound, fun h => absurd h (hex _ _ hp), by omega, ?_, ?_⟩
      · rintro ⟨s, hs, h | h⟩
        · exact absurd ⟨s, hs, h⟩ (hex _ _ hse)
        · exact absurd ⟨s, hs, h⟩ (hex _ _ hf)
      · intro dId' id' steps' h he
        rw [hinj dId' id' steps' h] at he
        exact absurd he hexit
    · -- the virtual-IP wait timed out
      have hp : (resourceSoftLayerLbVpxCreate d b).trace.countP Step.isProbe = 0 := by
        rw [ht]; simp [hprobe0, hvp]
      have hse : (resourceSoftLayerLbVpxCreate d b).trace.countP Step.isSettle = 0 := by
        rw [ht]; simp [hsettle0, hvs]
      have hf : (resourceSoftLayerLbVpxCreate d b).trace.countP Step.isFinalRead = 0 := by
        rw [ht]; simp [hfinal0, hvf]
      refine ⟨fun _ => hbound, fun h => absurd h (hex _ _ hp), by omega, ?_, ?_⟩
      · rintro ⟨s, hs, h | h⟩
        · exact absurd ⟨s, hs, h⟩ (hex _ _ hse)
        · exact absurd ⟨s, hs, h⟩ (hex _ _ hf)
      · intro dId' id' steps' h _ hr
        rw [hinj dId' id' steps' h, hready] at hr
        cases hr
    · -- the management-API wait timed out
      have hse : (resourceSoftLayerLbVpxCreate d b).trace.countP Step.isSettle = 0 := by
        rw [ht]; simp [hsettle0, hvs, hrs]
      have hf : (resourceSoftLayerLbVpxCreate d b).trace.countP Step.isFinalRead = 0 := by
        rw [ht]; simp [hfinal0, hvf, hrf]
      refine ⟨fun _ => hbound, fun _ => ⟨dId, id, steps, hpre, hexit, hready⟩, by omega,
        ?_, ?_⟩
      · rintro ⟨s, hs, h | h⟩
        · exact absurd ⟨s, hs, h⟩ (hex _ _ hse)
        · exact absurd ⟨s, hs, h⟩ (hex _ _ hf)
      · intro dId' id' steps' h _ _ hr
        rw [hinj dId' id' steps' h, hrest] at hr
        cases hr
    · -- both waits ended ready
      have hse : (resourceSoftLayerLbVpxCreate d b).trace.countP Step.isSettle = 1 := by
        rw [ht]; simp [hsettle0, hvs, hrs, Step.isSettle]
      have hlast : (steps ++ (vipWait b id).trace ++ (restWait b id).trace).getLast?
          = some (.GetLoadBalancers id) := by
        have hl := restWaitLoop_ready_last (b.GetLoadBalancers id) id 60 0 hrest
        have hne : (restWait b id).trace ≠ [] := by
          intro h
          have := restWait_first_probe b id
          rw [h] at this
          simp at this
        rw [List.getLast?_append_of_ne_nil _ hne]
        exact hl
      refine ⟨fun _ => hbound, fun _ => ⟨dId, id, steps, hpre, hexit, hready⟩, by omega,
        fun _ => ⟨dId, id, steps, hpre, hexit, hready, hrest, by rw [ht]; simp, hlast,
          by simp [hsettle0, hvs, hrs], by simp [hfinal0, hvf, hrf]⟩, ?_⟩
      intro dId' id' steps' _ _ _ _
      exact hse

theorem create_sequencing_witness :
    (resourceSoftLayerLbVpxCreate sampleOrder (sampleBackend 2 3)).trace.countP Step.isSettle
      = 1 :=
  (create_sequencing sampleOrder (sampleBackend 2 3)).2.2.2.2 "7" 7 _ (by rfl) (by rfl)
    (by rfl) (by rfl)

end Softlayer
